import Mathlib

/-!
# Lawyer management system (frontend): session and request pipeline

A shallow embedding of `src/frontend/src/services/api.js` (the axios instance `api`
with its request and response interceptors) and of the session operations of
`src/frontend/src/contexts/AuthContext.jsx`, followed by the route guards of `App.jsx`,
the menu filter of `Sidebar.jsx`, the theme name of `ThemeContext.jsx` and the pure parts
of the pages `Users.jsx`, `Templates.jsx` and `Calendar.jsx`.

Asynchronous code is modelled by explicit state passing: a `World` carries the
browser state the code reads and writes (`localStorage`, `window.location.href`) and a
chronological log of the observable effects (requests put on the network, redirects).
The backend is a parameter (`Env`): a deterministic function from the history so far and
the request to a reply, so that a theorem quantified over `Env` covers every server
behaviour, including stateful ones.
-/

namespace LawyerManagement

/-! ## JavaScript values -/

/-- JavaScript truthiness of a `string | null | undefined` value, as tested by `if (token)`:
`null`/`undefined` and the empty string are falsy, every other string is truthy. -/
def truthy : Option String → Bool
  | some s => decide (s ≠ "")
  | none => false

/-- String coercion of a `string | undefined` value, as done by a template literal and by
`localStorage.setItem`: `undefined` becomes the text `undefined`. -/
def jsString : Option String → String
  | some s => s
  | none => "undefined"

/-! ## Browser state -/

/-- The entries of `window.localStorage` the application uses: the keys `accessToken`,
`refreshToken` and `theme`. `getItem k` is the field `k` (`none` is `null`), `setItem k v`
sets it to `some v`, `removeItem k` sets it to `none`. -/
structure LocalStorage where
  accessToken : Option String
  refreshToken : Option String
  theme : Option String
deriving DecidableEq, Repr

/-- Request headers: the `Authorization` header and the other headers. -/
structure Headers where
  Authorization : Option String
  other : List (String × String)
deriving DecidableEq, Repr

/-- An axios request config. `_retry` is the flag the response interceptor puts on a config
it has already tried to recover (`undefined`, read as `false`, on a fresh config). -/
structure Config where
  method : String
  url : String
  headers : Headers
  params : String
  data : String
  _retry : Bool
deriving DecidableEq, Repr

/-- The `UserProfile` of the application. -/
structure User where
  id : Nat
  name : String
  surname : String
  email : String
  role : String
  active : Bool
deriving DecidableEq, Repr

/-- A JSON response body, with the fields the frontend reads. -/
structure Data where
  access_token : Option String
  refresh_token : Option String
  user : Option User
  message : Option String
  body : String
deriving DecidableEq, Repr

/-- An HTTP response as axios hands it to the application. -/
structure Response where
  status : Nat
  data : Data
deriving DecidableEq, Repr

/-- An axios error: `config` is the config of the request that failed, `response` is absent
for a network or timeout error. -/
structure AxiosError where
  message : String
  config : Config
  response : Option Response
deriving DecidableEq, Repr

/-- What the network gives back for one request. -/
inductive Reply where
  | response (status : Nat) (data : Data)
  | noResponse (message : String)
deriving DecidableEq, Repr

/-- Observable effects, logged in the order they happen. -/
inductive Event where
  /-- The instance `api` puts a request on the network (after its request interceptor). -/
  | dispatched (config : Config)
  /-- The global `axios.post` of the token refresh puts a request on the network. -/
  | refreshCall (config : Config)
  /-- An assignment to `window.location.href`. -/
  | redirect (href : String)
deriving DecidableEq, Repr

/-- The browser state and the effects so far. -/
structure World where
  localStorage : LocalStorage
  href : String
  log : List Event
deriving DecidableEq, Repr

/-- The environment of the frontend: the build-time variable `REACT_APP_API_URL` and the
backend. `backend history config` is the reply to a request sent through `api` after the
effects `history`; `refreshBackend` is the same for the direct `axios.post` refresh call. -/
structure Env where
  REACT_APP_API_URL : Option String
  backend : List Event → Config → Reply
  refreshBackend : List Event → Config → Reply

/-- The outcome of a promise of a response. -/
inductive Settled where
  | resolved (response : Response)
  | rejected (error : AxiosError)
deriving DecidableEq, Repr

/-! ## `services/api.js` -/

/-- Line 9: `process.env.REACT_APP_API_URL || 'http://localhost:5000/api'`. -/
def API_URL (env : Env) : String :=
  if truthy env.REACT_APP_API_URL then jsString env.REACT_APP_API_URL
  else "http://localhost:5000/api"

/-- The default `validateStatus` of axios: a status in `[200, 300)` resolves. -/
def validateStatus (status : Nat) : Bool :=
  decide (200 ≤ status) && decide (status < 300)

/-- How axios settles a request from the reply of the network: a response with a valid
status resolves, any other response and the absence of a response reject with an error
that carries the request config. -/
def settle (config : Config) : Reply → Except AxiosError Response
  | .response status data =>
    if validateStatus status then .ok ⟨status, data⟩
    else .error ⟨"Request failed", config, some ⟨status, data⟩⟩
  | .noResponse message => .error ⟨message, config, none⟩

/-- Assignment `config.headers.Authorization = value`. -/
def Config.setAuthorization (config : Config) (value : String) : Config :=
  { config with headers := { config.headers with Authorization := some value } }

/-- Assignment `config._retry = true` (line 44). -/
def Config.markRetried (config : Config) : Config :=
  { config with _retry := true }

/-- Lines 21-28, the request interceptor of `api`. -/
def requestInterceptor (localStorage : LocalStorage) (config : Config) : Config :=
  let token := localStorage.accessToken
  if truthy token then config.setAuthorization ("Bearer " ++ jsString token)
  else config

/-- Lines 51-55: the config of `axios.post(API_URL + '/auth/refresh', {}, {headers})`. -/
def refreshConfig (env : Env) (refreshToken : String) : Config :=
  { method := "post"
    url := API_URL env ++ "/auth/refresh"
    headers := { Authorization := some ("Bearer " ++ refreshToken), other := [] }
    params := ""
    data := "\x7b\x7d"
    _retry := false }

/-- Append one effect to the log. -/
def World.emit (w : World) (e : Event) : World :=
  { w with log := w.log ++ [e] }

/-- Lines 39-78, the error handler of the response interceptor of `api`. The parameter
`api` is the instance itself, called at line 62 to send the original request again. -/
def responseErrorHandler (env : Env) (api : Config → World → Option (Settled × World))
    (error : AxiosError) (w : World) : Option (Settled × World) :=
  let originalRequest := error.config
  if error.response.map (·.status) = some 401 && !originalRequest._retry then
    -- `originalRequest._retry = true` mutates the config object held by `error`
    let originalRequest := originalRequest.markRetried
    let error := { error with config := originalRequest }
    let refreshToken := w.localStorage.refreshToken
    if truthy refreshToken then
      let request := refreshConfig env (jsString refreshToken)
      let w1 := w.emit (.refreshCall request)
      match settle request (env.refreshBackend w.log request) with
      | .ok response =>
        let access_token := response.data.access_token
        let w2 := { w1 with localStorage :=
          { w1.localStorage with accessToken := some (jsString access_token) } }
        let originalRequest :=
          originalRequest.setAuthorization ("Bearer " ++ jsString access_token)
        api originalRequest w2
      | .error refreshError =>
        let w2 := { w1 with localStorage :=
          { w1.localStorage with accessToken := none, refreshToken := none } }
        let w3 := { w2 with href := "/login" }.emit (.redirect "/login")
        some (.rejected refreshError, w3)
    else
      let w1 := { w with localStorage := { w.localStorage with accessToken := none } }
      let w2 := { w1 with href := "/login" }.emit (.redirect "/login")
      some (.rejected error, w2)
  else
    some (.rejected error, w)

/-- Lines 36-38, the success handler of the response interceptor of `api`. -/
def responseHandler (response : Response) : Response :=
  response

/-- A call `api(config)` of the axios instance: request interceptor, network, response
interceptor (`responseHandler` on a response, `responseErrorHandler` on an error). The
first argument bounds the depth of the calls of `api` from inside its own error handler;
`none` means the bound was reached. -/
def api (env : Env) : Nat → Config → World → Option (Settled × World)
  | 0, _, _ => none
  | fuel + 1, config, w =>
    let config := requestInterceptor w.localStorage config
    let w1 := w.emit (.dispatched config)
    match settle config (env.backend w.log config) with
    | .ok response => some (.resolved (responseHandler response), w1)
    | .error error => responseErrorHandler env (api env fuel) error w1

/-- The promise outcome of a settled request that no handler touches. -/
def Settled.ofExcept : Except AxiosError Response → Settled
  | .ok response => .resolved response
  | .error error => .rejected error

/-- The requests in a log that were sent again by the error handler (line 62): the
dispatched configs that carry the `_retry` mark. -/
def retriedRequests (log : List Event) : List Config :=
  log.filterMap fun e =>
    match e with
    | .dispatched config => if config._retry then some config else none
    | _ => none

/-- The refresh calls in a log. -/
def refreshCalls (log : List Event) : List Config :=
  log.filterMap fun e =>
    match e with
    | .refreshCall config => some config
    | _ => none

/-- The redirects in a log. -/
def redirects (log : List Event) : List String :=
  log.filterMap fun e =>
    match e with
    | .redirect href => some href
    | _ => none

/-! ## `contexts/AuthContext.jsx` -/

/-- The React state of `AuthProvider` (lines 16-18). -/
structure AuthState where
  user : Option User
  loading : Bool
  error : Option String
deriving DecidableEq, Repr

/-- The state `AuthProvider` is created in: `useState(null)`, `useState(true)`,
`useState(null)`. -/
def initialAuthState : AuthState :=
  { user := none, loading := true, error := none }

/-- Lines 29-32, `clearTokens`. -/
def clearTokens (w : World) : World :=
  { w with localStorage := { w.localStorage with accessToken := none, refreshToken := none } }

/-- The headers every config of `api` starts from (lines 12-18). -/
def defaultHeaders : Headers :=
  { Authorization := none, other := [("Content-Type", "application/json")] }

/-- The config of `api.get(url)`. -/
def getConfig (url : String) : Config :=
  { method := "get", url := url, headers := defaultHeaders, params := "", data := "",
    _retry := false }

/-- Lines 35-53, `fetchCurrentUser`; `console.error` is not modelled. The effect at line 57
runs it once on the initial state when the application starts. -/
def fetchCurrentUser (env : Env) (fuel : Nat) (s : AuthState) (w : World) :
    Option (AuthState × World) :=
  let token := w.localStorage.accessToken
  if !truthy token then
    some ({ s with loading := false }, w)
  else
    match api env fuel (getConfig "/auth/me") w with
    | none => none
    | some (.resolved response, w1) =>
      some ({ s with user := response.data.user, error := none, loading := false }, w1)
    | some (.rejected _, w1) =>
      some ({ s with user := none, loading := false }, clearTokens w1)

/-- Line 120, `isAuthenticated: !!user`. -/
def isAuthenticated (s : AuthState) : Bool :=
  s.user.isSome

/-- The object the session operations return: `success`, and `error` on a failure. -/
structure OpResult where
  success : Bool
  error : Option String
deriving DecidableEq, Repr

/-- The config of `api.post(url, data)`. -/
def postConfig (url : String) (data : String) : Config :=
  { method := "post", url := url, headers := defaultHeaders, params := "", data := data,
    _retry := false }

/-- The config of `api.put(url, data)`. -/
def putConfig (url : String) (data : String) : Config :=
  { method := "put", url := url, headers := defaultHeaders, params := "", data := data,
    _retry := false }

/-- The text of a request body with the given string fields, in the order given; the
escaping of special characters inside a value is not modelled. -/
def jsonObject (fields : List (String × String)) : String :=
  "\x7b" ++ ",".intercalate (fields.map fun f => "\"" ++ f.1 ++ "\":\"" ++ f.2 ++ "\"")
    ++ "\x7d"

/-- Lines 21-26, `setTokens`. -/
def setTokens (accessToken refreshToken : Option String) (w : World) : World :=
  let w1 := { w with localStorage :=
    { w.localStorage with accessToken := some (jsString accessToken) } }
  if truthy refreshToken then
    { w1 with localStorage :=
      { w1.localStorage with refreshToken := some (jsString refreshToken) } }
  else w1

/-- The expression `err.response?.data?.message`. -/
def AxiosError.serverMessage (err : AxiosError) : Option String :=
  (err.response.map (·.data)).bind (·.message)

/-- The expression `err.response?.data?.message || fallback` of the catch blocks. -/
def errorMessage (err : AxiosError) (fallback : String) : String :=
  if truthy err.serverMessage then jsString err.serverMessage else fallback

/-- Lines 61-76, `login`. -/
def login (env : Env) (fuel : Nat) (email password : String) (s : AuthState) (w : World) :
    Option (OpResult × AuthState × World) :=
  -- `setError(null)`
  let s1 := { s with error := none }
  match api env fuel
      (postConfig "/auth/login" (jsonObject [("email", email), ("password", password)])) w with
  | none => none
  | some (.resolved response, w1) =>
    let access_token := response.data.access_token
    let refresh_token := response.data.refresh_token
    let userData := response.data.user
    let w2 := setTokens access_token refresh_token w1
    some ({ success := true, error := none }, { s1 with user := userData }, w2)
  | some (.rejected err, w1) =>
    let message := errorMessage err "Giriş başarısız"
    some ({ success := false, error := some message }, { s1 with error := some message }, w1)

/-- Lines 79-88, `logout`; `console.error` is not modelled. Both branches end in the
`finally` block. -/
def logout (env : Env) (fuel : Nat) (s : AuthState) (w : World) :
    Option (AuthState × World) :=
  match api env fuel (postConfig "/auth/logout" "") w with
  | none => none
  | some (.resolved _, w1) => some ({ s with user := none }, clearTokens w1)
  | some (.rejected _, w1) => some ({ s with user := none }, clearTokens w1)

/-- Lines 91-102, `changePassword`. No state setter is called, so the state is handed back
as it was received. -/
def changePassword (env : Env) (fuel : Nat) (currentPassword newPassword : String)
    (s : AuthState) (w : World) : Option (OpResult × AuthState × World) :=
  match api env fuel
      (postConfig "/auth/change-password"
        (jsonObject [("current_password", currentPassword), ("new_password", newPassword)]))
      w with
  | none => none
  | some (.resolved _, w1) => some ({ success := true, error := none }, s, w1)
  | some (.rejected err, w1) =>
    some ({ success := false, error := some (errorMessage err "Şifre değiştirilemedi") }, s, w1)

/-- Lines 105-114, `updateProfile`. With no current user the expression `user.id` throws
inside the `try` block before anything is sent; the error caught has no `response`, so the
message is the fallback. -/
def updateProfile (env : Env) (fuel : Nat) (data : String) (s : AuthState) (w : World) :
    Option (OpResult × AuthState × World) :=
  match s.user with
  | none => some ({ success := false, error := some "Profil güncellenemedi" }, s, w)
  | some user =>
    match api env fuel (putConfig ("/users/" ++ toString user.id) data) w with
    | none => none
    | some (.resolved response, w1) =>
      some ({ success := true, error := none }, { s with user := response.data.user }, w1)
    | some (.rejected err, w1) =>
      some ({ success := false, error := some (errorMessage err "Profil güncellenemedi") }, s, w1)


/-! ## `App.jsx`: route guards -/

/-- What a route guard renders: the loading placeholder, a `Navigate` element, or the
children it was given. -/
inductive RouteResult (α : Type) where
  | placeholder
  | navigate (target : String)
  | children (c : α)
deriving DecidableEq, Repr

/-- Lines 36-59, `ProtectedRoute`; `useAuth()` gives `loading` and `isAuthenticated`. -/
def ProtectedRoute {α : Type} (s : AuthState) (children : α) : RouteResult α :=
  if s.loading then .placeholder
  else if !isAuthenticated s then .navigate "/login"
  else .children children

/-- Lines 65-88, `LoginRoute`. -/
def LoginRoute {α : Type} (s : AuthState) (children : α) : RouteResult α :=
  if s.loading then .placeholder
  else if isAuthenticated s then .navigate "/"
  else .children children

/-- Lines 94-102, `AdminRoute`: the test is `user?.role !== 'admin'`. -/
def AdminRoute {α : Type} (s : AuthState) (children : α) : RouteResult α :=
  if s.user.map (·.role) ≠ some "admin" then .navigate "/"
  else .children children

/-- The page components of the application. -/
inductive Page where
  | Login | Dashboard | Clients | Cases | Finance | Leads | Documents | Calendar | Templates
  | Users | Settings
deriving DecidableEq, Repr

/-- What a guard that wraps another guard shows. -/
def RouteResult.join {α : Type} : RouteResult (RouteResult α) → RouteResult α
  | .placeholder => .placeholder
  | .navigate target => .navigate target
  | .children c => c

/-- Lines 133-149: the element of the child route of `/` that matches the path, if any. -/
def childRoute (s : AuthState) (path : String) : Option (RouteResult Page) :=
  if path = "/" then some (.children .Dashboard)
  else if path = "/clients" then some (.children .Clients)
  else if path = "/cases" then some (.children .Cases)
  else if path = "/finance" then some (.children .Finance)
  else if path = "/leads" then some (.children .Leads)
  else if path = "/documents" then some (.children .Documents)
  else if path = "/calendar" then some (.children .Calendar)
  else if path = "/templates" then some (.children .Templates)
  else if path = "/users" then some (AdminRoute s .Users)
  else if path = "/settings" then some (.children .Settings)
  else none

/-- Lines 113-154, the route table of `App`: what is shown at a path. The child routes of
`/` are shown inside `Layout`, which `ProtectedRoute` wraps; any other path navigates to
`/`. -/
def App (s : AuthState) (path : String) : RouteResult Page :=
  if path = "/login" then LoginRoute s .Login
  else
    match childRoute s path with
    | some element => (ProtectedRoute s element).join
    | none => .navigate "/"

/-! ## `components/common/Sidebar.jsx` -/

/-- An entry of the menu tables (the icon is not modelled). -/
structure MenuItem where
  text : String
  path : String
  roles : List String
deriving DecidableEq, Repr

/-- Lines 36-85, `menuItems`. -/
def menuItems : List MenuItem :=
  [ { text := "Dashboard", path := "/", roles := ["admin", "lawyer", "secretary", "intern"] },
    { text := "Müvekkiller", path := "/clients",
      roles := ["admin", "lawyer", "secretary", "intern"] },
    { text := "Davalar", path := "/cases", roles := ["admin", "lawyer", "secretary", "intern"] },
    { text := "Finans", path := "/finance", roles := ["admin", "lawyer", "secretary"] },
    { text := "Potansiyel İşler", path := "/leads", roles := ["admin", "lawyer", "secretary"] },
    { text := "Belgeler", path := "/documents",
      roles := ["admin", "lawyer", "secretary", "intern"] },
    { text := "Takvim", path := "/calendar",
      roles := ["admin", "lawyer", "secretary", "intern"] },
    { text := "Şablonlar", path := "/templates", roles := ["admin", "lawyer", "secretary"] } ]

/-- Lines 87-94, `adminItems`. -/
def adminItems : List MenuItem :=
  [ { text := "Kullanıcılar", path := "/users", roles := ["admin"] } ]

/-- Lines 96-103, `settingsItems`. -/
def settingsItems : List MenuItem :=
  [ { text := "Ayarlar", path := "/settings",
      roles := ["admin", "lawyer", "secretary", "intern"] } ]

/-- The call `roles.includes(x)` for a `string | undefined` value `x`. -/
def includes (roles : List String) (x : Option String) : Bool :=
  match x with
  | some role => roles.contains role
  | none => false

/-- Lines 120-123, `filterByRole`, with the `user` of `useAuth()`. -/
def filterByRole (user : Option User) (items : List MenuItem) : List MenuItem :=
  items.filter fun item => includes item.roles (user.map (·.role))

/-- The roles of the application. -/
def roleNames : List String :=
  ["admin", "lawyer", "secretary", "intern"]

/-! ## `pages/Users.jsx`: the submit handler -/

/-- A value of a form field. -/
inductive JsValue where
  | str (s : String)
  | bool (b : Bool)
deriving DecidableEq, Repr

/-- A JavaScript object with string keys, as the list of its entries. -/
abbrev JsObject := List (String × JsValue)

/-- Property read `o[key]`; `none` is `undefined`. -/
def JsObject.get (o : JsObject) (key : String) : Option JsValue :=
  (o.find? fun entry => entry.1 = key).map (·.2)

/-- The object without the property `key`: the rest of a destructuring that takes `key`
out, and the effect of `delete o[key]`. -/
def JsObject.omit (o : JsObject) (key : String) : JsObject :=
  o.filter fun entry => entry.1 ≠ key

/-- Truthiness of a property value. -/
def JsValue.truthy : Option JsValue → Bool
  | some (.str s) => decide (s ≠ "")
  | some (.bool b) => b
  | none => false

/-- The calls of `apiService` the submit handler can make. -/
inductive UserCall where
  | updateUser (id : Nat) (data : JsObject)
  | createUser (data : JsObject)
deriving DecidableEq, Repr

/-- Lines 128-140 of `Users.jsx`: the call the submit handler of the user form makes for
the form values and the user being edited (`null` when a user is created). -/
def usersOnSubmit (editingUser : Option User) (values : JsObject) : UserCall :=
  let submitValues := values.omit "isEditing"
  let submitValues :=
    if !JsValue.truthy (submitValues.get "password") then submitValues.omit "password"
    else submitValues
  match editingUser with
  | some user => .updateUser user.id submitValues
  | none => .createUser submitValues

/-! ## `contexts/ThemeContext.jsx` -/

/-- Lines 14-18: `Object.keys(themes)`, in the order of the object literal. -/
def themeKeys : List String :=
  ["professionalBlue", "darkMode", "elegantPurple"]

/-- The property names every object literal inherits from `Object.prototype`. -/
def objectPrototypeKeys : List String :=
  ["constructor", "__defineGetter__", "__defineSetter__", "hasOwnProperty",
    "__lookupGetter__", "__lookupSetter__", "isPrototypeOf", "propertyIsEnumerable",
    "toString", "valueOf", "__proto__", "toLocaleString"]

/-- Truthiness of the property read `themes[name]`: the three themes are objects, an
inherited property is a function or an object, anything else is `undefined`. -/
def themesHas (name : String) : Bool :=
  themeKeys.contains name || objectPrototypeKeys.contains name

/-- Lines 32-35, the initial `themeName`. -/
def initialThemeName (localStorage : LocalStorage) : String :=
  let saved := localStorage.theme
  if truthy saved && themesHas (jsString saved) then jsString saved else "professionalBlue"

/-- Lines 46-50, `changeTheme`: the theme name after the call. -/
def changeTheme (themeName newThemeName : String) : String :=
  if themesHas newThemeName then newThemeName else themeName

/-- The call `keys.indexOf(x)`: the first index of `x`, or `-1`. -/
def indexOf (keys : List String) (x : String) : Int :=
  match keys with
  | [] => -1
  | key :: rest =>
    if key = x then 0
    else
      let i := indexOf rest x
      if i < 0 then -1 else i + 1

/-- Lines 53-58, `toggleTheme`: the theme name after the call. -/
def toggleTheme (themeName : String) : String :=
  let currentIndex := indexOf themeKeys themeName
  let nextIndex := (currentIndex + 1) % (themeKeys.length : Int)
  themeKeys.getD nextIndex.toNat ""

/-- A call of one of the two functions the theme context offers. -/
inductive ThemeAction where
  | changeTheme (newThemeName : String)
  | toggleTheme
deriving DecidableEq, Repr

/-- The theme name after a sequence of calls. -/
def runTheme (themeName : String) : List ThemeAction → String
  | [] => themeName
  | .changeTheme newThemeName :: rest => runTheme (changeTheme themeName newThemeName) rest
  | .toggleTheme :: rest => runTheme (toggleTheme themeName) rest

/-! ## `pages/Templates.jsx`: the variables of a template -/

/-- The characters `String.prototype.trim` removes: the white space and line terminator
code points of ECMAScript. -/
def isJsWhitespace (c : Char) : Bool :=
  let n := c.toNat
  n = 0x09 || n = 0x0A || n = 0x0B || n = 0x0C || n = 0x0D || n = 0x20 || n = 0xA0 ||
    n = 0x1680 || (decide (0x2000 ≤ n) && decide (n ≤ 0x200A)) || n = 0x2028 || n = 0x2029 ||
    n = 0x202F || n = 0x205F || n = 0x3000 || n = 0xFEFF

/-- The call `s.trim()`, on the characters of `s`. -/
def trimChars (cs : List Char) : List Char :=
  ((cs.dropWhile isJsWhitespace).reverse.dropWhile isJsWhitespace).reverse

/-- The call `s.split(sep)` for a separator of one character, on the characters of `s`:
the pieces between the separators; the empty text has the one piece that is empty. -/
def splitChars (sep : Char) : List Char → List (List Char)
  | [] => [[]]
  | c :: cs =>
    if c = sep then [] :: splitChars sep cs
    else
      match splitChars sep cs with
      | [] => [[c]]
      | piece :: pieces => (c :: piece) :: pieces

/-- The call `xs.join(sep)`, on characters. -/
def joinChars (sep : List Char) : List (List Char) → List Char
  | [] => []
  | [x] => x
  | x :: y :: rest => x ++ sep ++ joinChars sep (y :: rest)

/-- Line 118 of `Templates.jsx`: `text.split(',').map(v => v.trim()).filter(v => v)`. -/
def parseVariables (text : String) : List String :=
  (((splitChars ',' text.data).map trimChars).filter fun v => decide (v ≠ [])).map String.mk

/-- The value of the form field `variables`: a text once the field was filled in, the list
of the initial values before. -/
inductive VariablesField where
  | text (value : String)
  | list (value : List String)
deriving DecidableEq, Repr

/-- Lines 116-119 of `Templates.jsx`, `variablesList`. -/
def variablesList : VariablesField → List String
  | .text value => parseVariables value
  | .list value => value

/-- Line 151 of `Templates.jsx`: the text the edit form shows for the variables of a
template, `Array.isArray(variables) ? variables.join(', ') : ''`. -/
def variablesText : Option (List String) → String
  | some names => String.mk (joinChars [',', ' '] (names.map String.data))
  | none => ""

/-- Whether a text starts or ends with a character that `trim` removes. -/
def untrimmed (s : String) : Bool :=
  (s.data.head?.map isJsWhitespace).getD false ||
    (s.data.getLast?.map isJsWhitespace).getD false

/-! ## `pages/Calendar.jsx`: grouping the events by day -/

/-- An event of the calendar, with the fields the grouping reads. -/
structure CalendarEvent where
  id : Nat
  title : String
  start_datetime : String
deriving DecidableEq, Repr

/-- Lines 227-228: `if (!acc[date]) acc[date] = []; acc[date].push(event)` on an object
kept as the list of its entries in the order the keys were added. -/
def pushEvent (acc : List (String × List CalendarEvent)) (date : String)
    (event : CalendarEvent) : List (String × List CalendarEvent) :=
  match acc with
  | [] => [(date, [event])]
  | (key, dayEvents) :: rest =>
    if key = date then (key, dayEvents ++ [event]) :: rest
    else (key, dayEvents) :: pushEvent rest date event

/-- Lines 225-229, the callback of the reduce. The parameter `formatDate` stands for
`format(new Date(start_datetime), 'yyyy-MM-dd')` of date-fns. For a start that `new Date`
can parse it gives the day in the time zone of the browser, a text of digits and hyphens.
For a start that `new Date` cannot parse the date is invalid and `format` throws
`RangeError: Invalid time value`: that is `none`, and the callback ends there without
touching `acc`. -/
def groupEvent (formatDate : String → Option String) (acc : List (String × List CalendarEvent))
    (event : CalendarEvent) : Option (List (String × List CalendarEvent)) :=
  match formatDate event.start_datetime with
  | none => none
  | some date => some (pushEvent acc date event)

/-- Lines 225-230, `groupedEvents`: the reduce over the events, from the empty object.
Nothing around it catches an error, so when the callback throws at an event the reduce ends
there and no groups are built: the result is `none`. -/
def groupedEvents (formatDate : String → Option String) (events : List CalendarEvent) :
    Option (List (String × List CalendarEvent)) :=
  events.foldlM (groupEvent formatDate) []

/-- Insert a group into a list of groups sorted by key. -/
def insertGroup (localeCompare : String → String → Int) (group : String × List CalendarEvent) :
    List (String × List CalendarEvent) → List (String × List CalendarEvent)
  | [] => [group]
  | next :: rest =>
    if localeCompare group.1 next.1 ≤ 0 then group :: next :: rest
    else next :: insertGroup localeCompare group rest

/-- Line 279: `.sort(([a], [b]) => a.localeCompare(b))` on the entries of the groups. The
parameter is `localeCompare` of the browser; the sort is stable. -/
def sortGroups (localeCompare : String → String → Int)
    (groups : List (String × List CalendarEvent)) : List (String × List CalendarEvent) :=
  groups.foldr (insertGroup localeCompare) []

/-- Lines 278-279: `Object.entries(groupedEvents).sort(([a], [b]) => a.localeCompare(b))`,
the groups in the order they are displayed. There are none when `groupedEvents` threw. -/
def displayedGroups (formatDate : String → Option String)
    (localeCompare : String → String → Int) (events : List CalendarEvent) :
    Option (List (String × List CalendarEvent)) :=
  match groupedEvents formatDate events with
  | none => none
  | some groups => some (sortGroups localeCompare groups)

/-! ## Sample inputs -/

/-- A response body with no field set. -/
def noData : Data :=
  { access_token := none, refresh_token := none, user := none, message := none, body := "" }

/-- A fresh request, as `apiService.getClients` builds it. -/
def sampleConfig : Config :=
  getConfig "/clients"

/-- A browser in which an access token and a refresh token are stored. -/
def sampleWorld : World :=
  { localStorage := { accessToken := some "old", refreshToken := some "r1", theme := none }
    href := "/clients"
    log := [] }

/-- A browser in which nothing is stored. -/
def anonymousWorld : World :=
  { localStorage := { accessToken := none, refreshToken := none, theme := none }
    href := "/"
    log := [] }

/-- A backend that answers 401 to every request, the refresh call included. -/
def envRefreshFails : Env :=
  { REACT_APP_API_URL := none
    backend := fun _ _ => .response 401 noData
    refreshBackend := fun _ _ => .response 401 noData }

/-- A backend that answers 401 to every request of `api` and whose refresh endpoint issues
the token `new`. -/
def envAlways401 : Env :=
  { REACT_APP_API_URL := none
    backend := fun _ _ => .response 401 noData
    refreshBackend := fun _ _ => .response 200 { noData with access_token := some "new" } }

/-- A backend that accepts only the token `new`, which its refresh endpoint issues. -/
def envExpired : Env :=
  { REACT_APP_API_URL := none
    backend := fun _ config =>
      if config.headers.Authorization = some "Bearer new" then
        .response 200 { noData with body := "clients" }
      else .response 401 noData
    refreshBackend := fun _ _ => .response 200 { noData with access_token := some "new" } }

/-- A backend that answers 200 to every request. -/
def envHealthy : Env :=
  { REACT_APP_API_URL := none
    backend := fun _ _ => .response 200 { noData with body := "clients" }
    refreshBackend := fun _ _ => .response 200 { noData with access_token := some "new" } }

/-- The error of `sampleConfig` answered 401, as the error handler receives it. -/
def sampleError : AxiosError :=
  { message := "Request failed"
    config := sampleConfig.setAuthorization "Bearer old"
    response := some { status := 401, data := noData } }

/-- A user profile. -/
def sampleUser : User :=
  { id := 7, name := "Ayla", surname := "Kaya", email := "ayla@example.com", role := "lawyer",
    active := true }

/-- The session of `sampleUser`, loaded. -/
def sampleSession : AuthState :=
  { user := some sampleUser, loading := false, error := none }

/-- The session of nobody, loaded. -/
def anonymousSession : AuthState :=
  { user := none, loading := false, error := none }

/-- A response body with tokens and `sampleUser`. -/
def sampleLoginData : Data :=
  { access_token := some "a1", refresh_token := some "r1", user := some sampleUser,
    message := none, body := "" }

/-- A backend whose endpoints of `api` answer 200 with tokens and `sampleUser`. -/
def envLogin : Env :=
  { REACT_APP_API_URL := none
    backend := fun _ _ => .response 200 sampleLoginData
    refreshBackend := fun _ _ => .response 401 noData }

/-- A backend that answers 401 with a message to every request of `api` and to the
refresh call. -/
def envRejects : Env :=
  { REACT_APP_API_URL := none
    backend := fun _ _ => .response 401 { noData with message := some "Invalid credentials" }
    refreshBackend := fun _ _ => .response 401 noData }

/-- A backend that does not answer. -/
def envOffline : Env :=
  { REACT_APP_API_URL := none
    backend := fun _ _ => .noResponse "Network Error"
    refreshBackend := fun _ _ => .noResponse "Network Error" }

/-- The body of a login request. -/
def sampleLoginBody : String :=
  jsonObject [("email", "ayla@example.com"), ("password", "secret")]

/-- The empty browser after a login answered with `sampleLoginData`. -/
def loggedInWorld : World :=
  { localStorage := { accessToken := some "a1", refreshToken := some "r1", theme := none }
    href := "/"
    log := [.dispatched (postConfig "/auth/login" sampleLoginBody)] }

/-- The browser `sampleWorld` after a session start against `envExpired`: the identity
request, the refresh call and the identity request again. -/
def restartedWorld : World :=
  { localStorage := { accessToken := some "new", refreshToken := some "r1", theme := none }
    href := "/clients"
    log := [.dispatched ((getConfig "/auth/me").setAuthorization "Bearer old"),
      .refreshCall (refreshConfig envExpired "r1"),
      .dispatched
        (((getConfig "/auth/me").setAuthorization "Bearer old").markRetried.setAuthorization
          "Bearer new")] }

/-- A backend that accepts only the token `new`, which its refresh endpoint issues, and
answers an accepted request with `sampleUser`. -/
def envExpiredIdentity : Env :=
  { REACT_APP_API_URL := none
    backend := fun _ config =>
      if config.headers.Authorization = some "Bearer new" then
        .response 200 { noData with user := some sampleUser }
      else .response 401 noData
    refreshBackend := fun _ _ => .response 200 { noData with access_token := some "new" } }

/-- A backend that answers the identity check with `sampleUser` and every other request of
`api`, and the refresh call, with 401. -/
def envSessionExpires : Env :=
  { REACT_APP_API_URL := none
    backend := fun _ config =>
      if config.url = "/auth/me" then .response 200 { noData with user := some sampleUser }
      else .response 401 noData
    refreshBackend := fun _ _ => .response 401 noData }

/-- The session of an intern, loaded. -/
def internSession : AuthState :=
  { user := some { sampleUser with role := "intern" }, loading := false, error := none }

/-- The session of an administrator, loaded. -/
def adminSession : AuthState :=
  { user := some { sampleUser with role := "admin" }, loading := false, error := none }

/-- The values of the user form when a user is created. -/
def sampleFormValues : JsObject :=
  [("email", .str "efe@example.com"), ("name", .str "Efe"), ("surname", .str "Demir"),
    ("phone", .str ""), ("role", .str "lawyer"), ("password", .str "secret"),
    ("is_active", .bool true), ("isEditing", .bool false)]

/-- Whether a text starts with a day written as `yyyy-MM-dd`. -/
def startsWithDay : List Char → Bool
  | y1 :: y2 :: y3 :: y4 :: s1 :: m1 :: m2 :: s2 :: d1 :: d2 :: _ =>
    [y1, y2, y3, y4, m1, m2, d1, d2].all Char.isDigit && s1 == '-' && s2 == '-'
  | _ => false

/-- A `formatDate` for the sample inputs. An ISO date-time text without a zone is read by
`new Date` in the time zone of the browser, so its day is its first ten characters. A text
that does not start with a day, such as the empty text, is one `new Date` cannot parse:
the date is invalid and `format` throws. -/
def sampleFormatDate (start : String) : Option String :=
  if startsWithDay start.data then some (String.mk (start.data.take 10)) else none

/-- The order of texts by their characters, which is the order `localeCompare` gives texts
of digits and hyphens. -/
def sampleLocaleCompare (a b : String) : Int :=
  if a < b then -1 else if a = b then 0 else 1

/-- Three events on two days, the later day first. -/
def sampleEvents : List CalendarEvent :=
  [ { id := 1, title := "Duruşma", start_datetime := "2024-03-12T09:30:00" },
    { id := 2, title := "Toplantı", start_datetime := "2024-03-05T14:00:00" },
    { id := 3, title := "Keşif", start_datetime := "2024-03-12T15:00:00" } ]

/-- An event whose start is the empty text, for which `new Date('')` is an invalid date. -/
def undatedEvent : CalendarEvent :=
  { id := 4, title := "Arabuluculuk", start_datetime := "" }

/-- The three events and, between them, the event without a start date. -/
def sampleEventsWithUndated : List CalendarEvent :=
  [ { id := 1, title := "Duruşma", start_datetime := "2024-03-12T09:30:00" },
    { id := 2, title := "Toplantı", start_datetime := "2024-03-05T14:00:00" },
    undatedEvent,
    { id := 3, title := "Keşif", start_datetime := "2024-03-12T15:00:00" } ]

/-! ## Auxiliary facts -/

theorem bearer_injective {a b : String} (h : "Bearer " ++ a = "Bearer " ++ b) : a = b := by
  have h1 := congrArg String.data h
  simp only [String.data_append] at h1
  exact String.ext (List.append_cancel_left h1)

theorem truthy_some {t : String} (h : t ≠ "") : truthy (some t) = true := by
  simp [truthy, h]

theorem requestInterceptor_retry (localStorage : LocalStorage) (config : Config) :
    (requestInterceptor localStorage config)._retry = config._retry := by
  unfold requestInterceptor
  dsimp only
  split <;> rfl

theorem settle_error_config {config : Config} {reply : Reply} {error : AxiosError}
    (h : settle config reply = .error error) : error.config = config := by
  unfold settle at h
  split at h
  · split at h
    · cases h
    · cases h; rfl
  · cases h; rfl

/-- An error that is not a 401, or whose request is already marked, is rejected as it is
and the world stays as it is. -/
theorem responseErrorHandler_passthrough (env : Env)
    (retry : Config → World → Option (Settled × World)) (error : AxiosError) (w : World)
    (h : (decide (error.response.map (·.status) = some 401) && !error.config._retry) = false) :
    responseErrorHandler env retry error w = some (.rejected error, w) := by
  unfold responseErrorHandler
  simp only [h]
  rfl

/-- A call of `api` on a config that carries the `_retry` mark sends one request and hands
its outcome to the caller. -/
theorem api_retried (env : Env) (fuel : Nat) (config : Config) (w : World)
    (h : config._retry = true) :
    api env (fuel + 1) config w =
      some (Settled.ofExcept
              (settle (requestInterceptor w.localStorage config)
                (env.backend w.log (requestInterceptor w.localStorage config))),
            w.emit (.dispatched (requestInterceptor w.localStorage config))) := by
  unfold api
  simp only []
  split
  · next response hs => rw [hs]; rfl
  · next error hs =>
    rw [hs]
    have hc := settle_error_config hs
    have hr := requestInterceptor_retry w.localStorage config
    rw [responseErrorHandler_passthrough]
    · rfl
    · rw [hc, hr, h]; simp

/-- Sending again with the token that was just stored: the request interceptor leaves the
header the error handler has set. -/
theorem requestInterceptor_after_refresh (localStorage : LocalStorage) (config : Config)
    (token : String) (h : localStorage.accessToken = some token) :
    requestInterceptor localStorage (config.setAuthorization ("Bearer " ++ token)) =
      config.setAuthorization ("Bearer " ++ token) := by
  unfold requestInterceptor
  rw [h]
  dsimp only [jsString]
  split <;> rfl

theorem validateStatus_401 : validateStatus 401 = false := by decide

/-- A reply with status 401 settles as an error that carries the request config. -/
theorem settle_401 (config : Config) (data : Data) :
    settle config (.response 401 data) =
      .error ⟨"Request failed", config, some ⟨401, data⟩⟩ := by
  simp [settle, validateStatus_401]

/-- The error handler on a fresh 401 when a refresh token is stored and the refresh call
succeeds: the token is stored, the original request is sent again once, and its outcome
is the outcome of the handler. -/
theorem responseErrorHandler_refreshed (env : Env) (fuel : Nat) (error : AxiosError)
    (w : World) (r : String) (status : Nat) (data : Data)
    (h401 : error.response.map (·.status) = some 401)
    (hfresh : error.config._retry = false)
    (hr : w.localStorage.refreshToken = some r) (hr0 : r ≠ "")
    (hreply : env.refreshBackend w.log (refreshConfig env r) = .response status data)
    (hok : validateStatus status = true) :
    responseErrorHandler env (api env (fuel + 1)) error w =
      some (Settled.ofExcept
              (settle
                (error.config.markRetried.setAuthorization
                  ("Bearer " ++ jsString data.access_token))
                (env.backend (w.log ++ [.refreshCall (refreshConfig env r)])
                  (error.config.markRetried.setAuthorization
                    ("Bearer " ++ jsString data.access_token)))),
            { localStorage :=
                { w.localStorage with accessToken := some (jsString data.access_token) }
              href := w.href
              log := w.log ++ [.refreshCall (refreshConfig env r),
                .dispatched (error.config.markRetried.setAuthorization
                  ("Bearer " ++ jsString data.access_token))] }) := by
  have hsettle : settle (refreshConfig env r) (.response status data) = .ok ⟨status, data⟩ := by
    simp [settle, hok]
  have hjs : jsString (some r) = r := rfl
  unfold responseErrorHandler
  simp only [h401, hfresh, hr, truthy_some hr0, hjs, hreply, hsettle]
  simp only [decide_True, Bool.not_false, Bool.and_self, if_true]
  rw [api_retried _ _ _ _ rfl]
  have key := requestInterceptor_after_refresh
    ⟨some (jsString data.access_token), some r, w.localStorage.theme⟩
    error.config.markRetried (jsString data.access_token) rfl
  simp only [World.emit, List.append_assoc, List.singleton_append, hr, key]

/-- The error handler on a fresh 401 when a refresh token is stored and the refresh call
fails: both tokens are removed, the browser is sent to `/login`, the original request is
not sent again and the error of the refresh call is the outcome. -/
theorem responseErrorHandler_refresh_failed (env : Env)
    (retry : Config → World → Option (Settled × World)) (error : AxiosError)
    (w : World) (r : String) (refreshError : AxiosError)
    (h401 : error.response.map (·.status) = some 401)
    (hfresh : error.config._retry = false)
    (hr : w.localStorage.refreshToken = some r) (hr0 : r ≠ "")
    (hfail : settle (refreshConfig env r) (env.refreshBackend w.log (refreshConfig env r))
      = .error refreshError) :
    responseErrorHandler env retry error w =
      some (.rejected refreshError,
            { localStorage := { w.localStorage with accessToken := none, refreshToken := none }
              href := "/login"
              log := w.log ++ [.refreshCall (refreshConfig env r), .redirect "/login"] }) := by
  unfold responseErrorHandler
  simp only [h401, hfresh, hr, truthy_some hr0, jsString, hfail]
  simp [World.emit]

/-- The error handler on a fresh 401 when no refresh token is stored: the access token is
removed, the browser is sent to `/login`, nothing is put on the network and the error,
its config now marked, is the outcome. -/
theorem responseErrorHandler_no_refresh_token (env : Env)
    (retry : Config → World → Option (Settled × World)) (error : AxiosError) (w : World)
    (h401 : error.response.map (·.status) = some 401)
    (hfresh : error.config._retry = false)
    (hr : truthy w.localStorage.refreshToken = false) :
    responseErrorHandler env retry error w =
      some (.rejected { error with config := error.config.markRetried },
            { localStorage := { w.localStorage with accessToken := none }
              href := "/login"
              log := w.log ++ [.redirect "/login"] }) := by
  unfold responseErrorHandler
  simp only [h401, hfresh, hr]
  simp [World.emit]

/-- A call of `api` whose request is answered 401 runs the error handler on the error
of that request. -/
theorem api_401 (env : Env) (fuel : Nat) (config : Config) (w : World) (data : Data)
    (h401 : env.backend w.log (requestInterceptor w.localStorage config) = .response 401 data) :
    api env (fuel + 1) config w =
      responseErrorHandler env (api env fuel)
        ⟨"Request failed", requestInterceptor w.localStorage config, some ⟨401, data⟩⟩
        (w.emit (.dispatched (requestInterceptor w.localStorage config))) := by
  unfold api
  simp only [h401, settle_401]

/-- With a bound of at least two, a call of `api` returns, and the first thing it does is
to put the intercepted request on the network. -/
theorem api_returns (env : Env) (fuel : Nat) (config : Config) (w : World) :
    ∃ res w' rest, api env (fuel + 2) config w = some (res, w') ∧
      w'.log = w.log ++ .dispatched (requestInterceptor w.localStorage config) :: rest := by
  unfold api
  simp only []
  split
  · exact ⟨_, _, [], rfl, rfl⟩
  · next error hs =>
    by_cases hc : (decide (error.response.map (·.status) = some 401) && !error.config._retry) = true
    · simp only [Bool.and_eq_true, decide_eq_true_eq, Bool.not_eq_true'] at hc
      obtain ⟨h401, hfresh⟩ := hc
      by_cases ht : truthy (w.emit (.dispatched (requestInterceptor w.localStorage config))).localStorage.refreshToken = true
      · cases hrt : (w.emit (.dispatched (requestInterceptor w.localStorage config))).localStorage.refreshToken with
        | none => rw [hrt] at ht; simp [truthy] at ht
        | some r =>
          have hr0 : r ≠ "" := by rw [hrt] at ht; simpa [truthy] using ht
          cases hset : settle (refreshConfig env r)
              (env.refreshBackend (w.emit (.dispatched (requestInterceptor w.localStorage config))).log (refreshConfig env r)) with
          | error refreshError =>
            rw [responseErrorHandler_refresh_failed env _ error _ r refreshError h401 hfresh hrt hr0 hset]
            exact ⟨_, _, [.refreshCall (refreshConfig env r), .redirect "/login"], rfl,
              by simp [World.emit]⟩
          | ok response =>
            cases hrep : env.refreshBackend (w.emit (.dispatched (requestInterceptor w.localStorage config))).log (refreshConfig env r) with
            | noResponse m => rw [hrep] at hset; simp [settle] at hset
            | response status data =>
              have hok : validateStatus status = true := by
                rw [hrep] at hset
                by_contra hne
                simp [settle, hne] at hset
              rw [responseErrorHandler_refreshed env fuel error _ r status data h401 hfresh hrt hr0 hrep hok]
              exact ⟨_, _, [.refreshCall (refreshConfig env r),
                .dispatched (error.config.markRetried.setAuthorization
                  ("Bearer " ++ jsString data.access_token))], rfl, by simp [World.emit]⟩
      · rw [responseErrorHandler_no_refresh_token env _ error _ h401 hfresh (by simpa using ht)]
        exact ⟨_, _, [.redirect "/login"], rfl, by simp [World.emit]⟩
    · rw [responseErrorHandler_passthrough env _ error _ (by simpa using hc)]
      exact ⟨_, _, [], rfl, rfl⟩

theorem settle_ok {config : Config} {reply : Reply} {response : Response}
    (h : settle config reply = .ok response) :
    ∃ status data, reply = .response status data ∧ validateStatus status = true := by
  cases reply with
  | noResponse m => simp [settle] at h
  | response status data =>
    refine ⟨status, data, rfl, ?_⟩
    by_contra hne
    simp [settle, hne] at h

/-! ## The request interceptor -/

/-- C1: the request interceptor. When a (non-empty) access token is stored under
`accessToken`, the config that is dispatched is the given config with the header
`Authorization` set to `Bearer ` followed by exactly that token; when none is stored
(the entry is absent or empty) the config is left as it is. With a bound of at least two
the call of `api` returns and the first thing put on the network is the intercepted
config. -/
theorem C1_request_interceptor (env : Env) (fuel : Nat) (config : Config) (w : World) :
    (∀ token, w.localStorage.accessToken = some token → token ≠ "" →
      requestInterceptor w.localStorage config =
          config.setAuthorization ("Bearer " ++ token) ∧
        (requestInterceptor w.localStorage config).headers.Authorization =
          some ("Bearer " ++ token) ∧
        (requestInterceptor w.localStorage config).headers.other = config.headers.other) ∧
    (truthy w.localStorage.accessToken = false →
      requestInterceptor w.localStorage config = config) ∧
    (∃ res w' rest, api env (fuel + 2) config w = some (res, w') ∧
      w'.log = w.log ++ .dispatched (requestInterceptor w.localStorage config) :: rest) := by
  refine ⟨?_, ?_, api_returns env fuel config w⟩
  · intro token ht h0
    have : requestInterceptor w.localStorage config =
        config.setAuthorization ("Bearer " ++ token) := by
      unfold requestInterceptor
      simp only [ht, truthy_some h0, if_true]
      rfl
    rw [this]
    exact ⟨rfl, rfl, rfl⟩
  · intro h
    unfold requestInterceptor
    simp only [h]
    rfl

/-- The interceptor on a browser that holds the token `old` and on one that holds none. -/
theorem C1_request_interceptor_witness :
    (sampleWorld.localStorage.accessToken = some "old" ∧ "old" ≠ "" ∧
      requestInterceptor sampleWorld.localStorage sampleConfig =
        sampleConfig.setAuthorization ("Bearer " ++ "old")) ∧
    (truthy anonymousWorld.localStorage.accessToken = false ∧
      requestInterceptor anonymousWorld.localStorage sampleConfig = sampleConfig) :=
  ⟨⟨rfl, by decide,
      ((C1_request_interceptor envHealthy 0 sampleConfig sampleWorld).1 "old" rfl
        (by decide)).1⟩,
    ⟨rfl, (C1_request_interceptor envHealthy 0 sampleConfig anonymousWorld).2.1 rfl⟩⟩

/-! ## The error handler: refresh and retry -/

/-- C2, as stated, fails: a request that receives a 401 while a refresh token is stored
produces no retried request when the refresh call fails, and none when the request is
itself already the retried one. -/
theorem C2_counterexample :
    (truthy sampleWorld.localStorage.refreshToken = true ∧
      envRefreshFails.backend sampleWorld.log
          (requestInterceptor sampleWorld.localStorage sampleConfig) = .response 401 noData ∧
      (api envRefreshFails 3 sampleConfig sampleWorld).map
          (fun out => retriedRequests out.2.log) = some []) ∧
    (truthy sampleWorld.localStorage.refreshToken = true ∧
      ({ sampleError with config := sampleError.config.markRetried } :
          AxiosError).response.map (·.status) = some 401 ∧
      (responseErrorHandler envAlways401 (api envAlways401 3)
          { sampleError with config := sampleError.config.markRetried }
          sampleWorld).map (fun out => out.2.log) = some []) := by
  decide

/-- C2, amended: for every fresh request that receives a 401 while a refresh token is
stored and whose refresh call succeeds, the pipeline returns having put exactly three
requests on the network: the original one, the refresh call and one retried request,
which carries `Bearer ` followed by the newly issued access token. -/
theorem C2_one_retry_when_refresh_succeeds (env : Env) (fuel : Nat) (config : Config)
    (w : World) (r : String) (data : Data) (status : Nat) (refreshed : Data)
    (hfresh : config._retry = false)
    (h401 : env.backend w.log (requestInterceptor w.localStorage config) = .response 401 data)
    (hr : w.localStorage.refreshToken = some r) (hr0 : r ≠ "")
    (hrefresh : env.refreshBackend
        (w.log ++ [.dispatched (requestInterceptor w.localStorage config)])
        (refreshConfig env r) = .response status refreshed)
    (hok : validateStatus status = true) :
    ∃ res w' retried, api env (fuel + 2) config w = some (res, w') ∧
      w'.log = w.log ++ [.dispatched (requestInterceptor w.localStorage config),
        .refreshCall (refreshConfig env r), .dispatched retried] ∧
      retriedRequests [.dispatched (requestInterceptor w.localStorage config),
        .refreshCall (refreshConfig env r), .dispatched retried] = [retried] ∧
      retried = (requestInterceptor w.localStorage config).markRetried.setAuthorization
        ("Bearer " ++ jsString refreshed.access_token) ∧
      retried.headers.Authorization = some ("Bearer " ++ jsString refreshed.access_token) := by
  have hc : (requestInterceptor w.localStorage config)._retry = false := by
    rw [requestInterceptor_retry, hfresh]
  rw [api_401 env (fuel + 1) config w data h401]
  rw [responseErrorHandler_refreshed env fuel
    ⟨"Request failed", requestInterceptor w.localStorage config, some ⟨401, data⟩⟩
    (w.emit (.dispatched (requestInterceptor w.localStorage config))) r status refreshed
    rfl hc hr hr0 hrefresh hok]
  refine ⟨_, _, _, rfl, ?_, ?_, rfl, rfl⟩
  · simp [World.emit]
  · simp [retriedRequests, hc, Config.setAuthorization, Config.markRetried]

/-- An expired token against a backend that accepts the refreshed one. -/
theorem C2_one_retry_when_refresh_succeeds_witness :
    ∃ res w' retried, api envExpired 2 sampleConfig sampleWorld = some (res, w') ∧
      w'.log = sampleWorld.log ++
        [.dispatched (requestInterceptor sampleWorld.localStorage sampleConfig),
          .refreshCall (refreshConfig envExpired "r1"), .dispatched retried] ∧
      retriedRequests [.dispatched (requestInterceptor sampleWorld.localStorage sampleConfig),
        .refreshCall (refreshConfig envExpired "r1"), .dispatched retried] = [retried] ∧
      retried = (requestInterceptor sampleWorld.localStorage sampleConfig).markRetried.setAuthorization
        ("Bearer " ++ jsString (some "new")) ∧
      retried.headers.Authorization = some ("Bearer " ++ jsString (some "new")) :=
  C2_one_retry_when_refresh_succeeds envExpired 0 sampleConfig sampleWorld "r1" noData 200
    { noData with access_token := some "new" } rfl (by decide) rfl (by decide) (by decide)
    (by decide)

/-- C3: a request sent by a caller to an endpoint that answers 401 to every attempt, with a
refresh token stored and a refresh endpoint that succeeds. For every bound of at least two
the call returns; exactly three requests were put on the network, in this order: the
original one, one refresh call and one retried request; the caller is rejected with the
401 error of the retried request, and nothing redirects. -/
theorem C3_always_401_one_refresh_one_retry (env : Env) (fuel : Nat) (config : Config)
    (w : World) (r : String)
    (hfresh : config._retry = false)
    (h401 : ∀ history request, ∃ data, env.backend history request = .response 401 data)
    (hr : w.localStorage.refreshToken = some r) (hr0 : r ≠ "")
    (hrefresh : ∀ history request, ∃ status data,
      env.refreshBackend history request = .response status data ∧
        validateStatus status = true) :
    ∃ error w' retried, api env (fuel + 2) config w = some (.rejected error, w') ∧
      error.response.map (·.status) = some 401 ∧
      error.config = retried ∧
      w'.log = w.log ++ [.dispatched (requestInterceptor w.localStorage config),
        .refreshCall (refreshConfig env r), .dispatched retried] ∧
      refreshCalls [.dispatched (requestInterceptor w.localStorage config),
        .refreshCall (refreshConfig env r), .dispatched retried] = [refreshConfig env r] ∧
      retriedRequests [.dispatched (requestInterceptor w.localStorage config),
        .refreshCall (refreshConfig env r), .dispatched retried] = [retried] ∧
      redirects [.dispatched (requestInterceptor w.localStorage config),
        .refreshCall (refreshConfig env r), .dispatched retried] = [] ∧
      w'.href = w.href := by
  have hc : (requestInterceptor w.localStorage config)._retry = false := by
    rw [requestInterceptor_retry, hfresh]
  obtain ⟨data, hd⟩ := h401 w.log (requestInterceptor w.localStorage config)
  obtain ⟨status, refreshed, hrep, hok⟩ :=
    hrefresh (w.log ++ [.dispatched (requestInterceptor w.localStorage config)])
      (refreshConfig env r)
  obtain ⟨data2, hd2⟩ := h401
    (w.log ++ [.dispatched (requestInterceptor w.localStorage config)] ++
      [.refreshCall (refreshConfig env r)])
    ((requestInterceptor w.localStorage config).markRetried.setAuthorization
      ("Bearer " ++ jsString refreshed.access_token))
  rw [api_401 env (fuel + 1) config w data hd]
  rw [responseErrorHandler_refreshed env fuel
    ⟨"Request failed", requestInterceptor w.localStorage config, some ⟨401, data⟩⟩
    (w.emit (.dispatched (requestInterceptor w.localStorage config))) r status refreshed
    rfl hc hr hr0 hrep hok]
  simp only [World.emit, hd2, settle_401, Settled.ofExcept]
  refine ⟨_, _, _, rfl, rfl, rfl, ?_, ?_, ?_, ?_, rfl⟩
  · simp
  · simp [refreshCalls]
  · simp [retriedRequests, hc, Config.setAuthorization, Config.markRetried]
  · simp [redirects]

/-- The always-401 backend with a working refresh endpoint. -/
theorem C3_always_401_one_refresh_one_retry_witness :
    ∃ error w' retried, api envAlways401 2 sampleConfig sampleWorld =
        some (.rejected error, w') ∧
      error.response.map (·.status) = some 401 ∧
      error.config = retried ∧
      w'.log = sampleWorld.log ++
        [.dispatched (requestInterceptor sampleWorld.localStorage sampleConfig),
          .refreshCall (refreshConfig envAlways401 "r1"), .dispatched retried] ∧
      refreshCalls [.dispatched (requestInterceptor sampleWorld.localStorage sampleConfig),
        .refreshCall (refreshConfig envAlways401 "r1"), .dispatched retried] =
          [refreshConfig envAlways401 "r1"] ∧
      retriedRequests [.dispatched (requestInterceptor sampleWorld.localStorage sampleConfig),
        .refreshCall (refreshConfig envAlways401 "r1"), .dispatched retried] = [retried] ∧
      redirects [.dispatched (requestInterceptor sampleWorld.localStorage sampleConfig),
        .refreshCall (refreshConfig envAlways401 "r1"), .dispatched retried] = [] ∧
      w'.href = sampleWorld.href :=
  C3_always_401_one_refresh_one_retry envAlways401 0 sampleConfig sampleWorld "r1" rfl
    (fun _ _ => ⟨noData, rfl⟩) rfl (by decide)
    (fun _ _ => ⟨200, { noData with access_token := some "new" }, rfl, by decide⟩)

/-- C4: the error handler on a 401 of a request that is not yet marked, with a refresh
token stored and a refresh call that fails. Whatever sending again would do, the handler
rejects with the error of the refresh call; afterwards neither token is stored, the
location is `/login`, and the effects are the refresh call followed by one redirect to
`/login`: the original request is not sent again. -/
theorem C4_refresh_failure (env : Env) (retry : Config → World → Option (Settled × World))
    (error : AxiosError) (w : World) (r : String) (refreshError : AxiosError)
    (h401 : error.response.map (·.status) = some 401)
    (hfresh : error.config._retry = false)
    (hr : w.localStorage.refreshToken = some r) (hr0 : r ≠ "")
    (hfail : settle (refreshConfig env r) (env.refreshBackend w.log (refreshConfig env r))
      = .error refreshError) :
    ∃ w', responseErrorHandler env retry error w = some (.rejected refreshError, w') ∧
      refreshError.config = refreshConfig env r ∧
      w'.localStorage.accessToken = none ∧
      w'.localStorage.refreshToken = none ∧
      w'.localStorage.theme = w.localStorage.theme ∧
      w'.href = "/login" ∧
      w'.log = w.log ++ [.refreshCall (refreshConfig env r), .redirect "/login"] ∧
      redirects [.refreshCall (refreshConfig env r), .redirect "/login"] = ["/login"] ∧
      retriedRequests [.refreshCall (refreshConfig env r), .redirect "/login"] = [] := by
  rw [responseErrorHandler_refresh_failed env retry error w r refreshError h401 hfresh hr hr0
    hfail]
  exact ⟨_, rfl, settle_error_config hfail, rfl, rfl, rfl, rfl, rfl, by simp [redirects],
    by simp [retriedRequests]⟩

/-- The handler against a backend whose refresh endpoint answers 401. -/
theorem C4_refresh_failure_witness :
    ∃ w', responseErrorHandler envRefreshFails (api envRefreshFails 1) sampleError sampleWorld
        = some (.rejected
            ⟨"Request failed", refreshConfig envRefreshFails "r1", some ⟨401, noData⟩⟩, w') ∧
      (⟨"Request failed", refreshConfig envRefreshFails "r1", some ⟨401, noData⟩⟩ :
        AxiosError).config = refreshConfig envRefreshFails "r1" ∧
      w'.localStorage.accessToken = none ∧
      w'.localStorage.refreshToken = none ∧
      w'.localStorage.theme = sampleWorld.localStorage.theme ∧
      w'.href = "/login" ∧
      w'.log = sampleWorld.log ++
        [.refreshCall (refreshConfig envRefreshFails "r1"), .redirect "/login"] ∧
      redirects [.refreshCall (refreshConfig envRefreshFails "r1"), .redirect "/login"]
        = ["/login"] ∧
      retriedRequests [.refreshCall (refreshConfig envRefreshFails "r1"), .redirect "/login"]
        = [] :=
  C4_refresh_failure envRefreshFails (api envRefreshFails 1) sampleError sampleWorld "r1"
    ⟨"Request failed", refreshConfig envRefreshFails "r1", some ⟨401, noData⟩⟩
    (by decide) (by decide) rfl (by decide) rfl

/-- C5: the error handler on a 401 of a request that is not yet marked, with no refresh
token available (the entry is absent or empty). Whatever sending again would do, the
handler rejects with the error it was given (its config now carries the mark); the access
token is removed, the refresh token entry is as before (so none is stored if none was),
the location is `/login`, and the only effect is that redirect: no refresh call and no
retry. -/
theorem C5_missing_refresh_token (env : Env)
    (retry : Config → World → Option (Settled × World)) (error : AxiosError) (w : World)
    (h401 : error.response.map (·.status) = some 401)
    (hfresh : error.config._retry = false)
    (hr : truthy w.localStorage.refreshToken = false) :
    ∃ w', responseErrorHandler env retry error w =
        some (.rejected { error with config := error.config.markRetried }, w') ∧
      w'.localStorage.accessToken = none ∧
      w'.localStorage.refreshToken = w.localStorage.refreshToken ∧
      truthy w'.localStorage.refreshToken = false ∧
      (w.localStorage.refreshToken = none → w'.localStorage.refreshToken = none) ∧
      w'.href = "/login" ∧
      w'.log = w.log ++ [.redirect "/login"] ∧
      refreshCalls [.redirect "/login"] = [] ∧
      retriedRequests [.redirect "/login"] = [] := by
  rw [responseErrorHandler_no_refresh_token env retry error w h401 hfresh hr]
  exact ⟨_, rfl, rfl, rfl, hr, fun h => h, rfl, rfl, by simp [refreshCalls],
    by simp [retriedRequests]⟩

/-- The handler on a browser that holds an access token and no refresh token. -/
theorem C5_missing_refresh_token_witness :
    ∃ w', responseErrorHandler envAlways401 (api envAlways401 1) sampleError
          { sampleWorld with localStorage := ⟨some "old", none, none⟩ } =
        some (.rejected { sampleError with config := sampleError.config.markRetried }, w') ∧
      w'.localStorage.accessToken = none ∧
      w'.localStorage.refreshToken = none ∧
      truthy w'.localStorage.refreshToken = false ∧
      ((none : Option String) = none → w'.localStorage.refreshToken = none) ∧
      w'.href = "/login" ∧
      w'.log = sampleWorld.log ++ [.redirect "/login"] ∧
      refreshCalls [.redirect "/login"] = [] ∧
      retriedRequests [.redirect "/login"] = [] :=
  C5_missing_refresh_token envAlways401 (api envAlways401 1) sampleError
    { sampleWorld with localStorage := ⟨some "old", none, none⟩ } (by decide) (by decide)
    (by decide)

/-- C6: the error handler on a 401 of a request that is not yet marked, with a refresh
token stored and a refresh call that succeeds with the access token `token`. The handler
returns; `token` is stored under `accessToken`, the refresh token entry and the location
are as before; after the refresh call the original request is put on the network exactly
once more, marked and with `Bearer token`; and the caller gets exactly the outcome of that
request: its response when it succeeds, its error when it fails. -/
theorem C6_refresh_success (env : Env) (fuel : Nat) (error : AxiosError) (w : World)
    (r : String) (status : Nat) (refreshed : Data) (token : String)
    (h401 : error.response.map (·.status) = some 401)
    (hfresh : error.config._retry = false)
    (hr : w.localStorage.refreshToken = some r) (hr0 : r ≠ "")
    (hreply : env.refreshBackend w.log (refreshConfig env r) = .response status refreshed)
    (hok : validateStatus status = true)
    (htoken : refreshed.access_token = some token) :
    ∃ res w' retried,
      responseErrorHandler env (api env (fuel + 1)) error w = some (res, w') ∧
      retried = error.config.markRetried.setAuthorization ("Bearer " ++ token) ∧
      res = Settled.ofExcept (settle retried
        (env.backend (w.log ++ [.refreshCall (refreshConfig env r)]) retried)) ∧
      (∀ response, settle retried
          (env.backend (w.log ++ [.refreshCall (refreshConfig env r)]) retried) = .ok response →
        res = .resolved response) ∧
      w'.localStorage.accessToken = some token ∧
      w'.localStorage.refreshToken = w.localStorage.refreshToken ∧
      w'.localStorage.theme = w.localStorage.theme ∧
      w'.href = w.href ∧
      w'.log = w.log ++ [.refreshCall (refreshConfig env r), .dispatched retried] ∧
      retriedRequests [.refreshCall (refreshConfig env r), .dispatched retried] = [retried] := by
  rw [responseErrorHandler_refreshed env fuel error w r status refreshed h401 hfresh hr hr0
    hreply hok]
  simp only [htoken, jsString]
  refine ⟨_, _, _, rfl, rfl, rfl, ?_, rfl, rfl, rfl, rfl, rfl, ?_⟩
  · intro response h
    rw [h]
    rfl
  · simp [retriedRequests, Config.setAuthorization, Config.markRetried]

/-- The handler against a backend that accepts the refreshed token. -/
theorem C6_refresh_success_witness :
    ∃ res w' retried,
      responseErrorHandler envExpired (api envExpired 1) sampleError sampleWorld
        = some (res, w') ∧
      retried = sampleError.config.markRetried.setAuthorization ("Bearer " ++ "new") ∧
      res = Settled.ofExcept (settle retried
        (envExpired.backend (sampleWorld.log ++ [.refreshCall (refreshConfig envExpired "r1")])
          retried)) ∧
      (∀ response, settle retried
          (envExpired.backend
            (sampleWorld.log ++ [.refreshCall (refreshConfig envExpired "r1")]) retried)
            = .ok response →
        res = .resolved response) ∧
      w'.localStorage.accessToken = some "new" ∧
      w'.localStorage.refreshToken = sampleWorld.localStorage.refreshToken ∧
      w'.localStorage.theme = sampleWorld.localStorage.theme ∧
      w'.href = sampleWorld.href ∧
      w'.log = sampleWorld.log ++
        [.refreshCall (refreshConfig envExpired "r1"), .dispatched retried] ∧
      retriedRequests [.refreshCall (refreshConfig envExpired "r1"), .dispatched retried]
        = [retried] :=
  C6_refresh_success envExpired 0 sampleError sampleWorld "r1" 200
    { noData with access_token := some "new" } "new" (by decide) (by decide) rfl (by decide)
    rfl (by decide) rfl

/-- C7: the error handler on a 401 of a request that already carries the `_retry` mark.
Whatever sending again would do, the handler rejects with the very error it was given and
the world is the one it started from: no refresh call, no retry, the stored tokens and
the location as before. -/
theorem C7_retried_401_propagates (env : Env)
    (retry : Config → World → Option (Settled × World)) (error : AxiosError) (w : World)
    (h401 : error.response.map (·.status) = some 401)
    (hretried : error.config._retry = true) :
    responseErrorHandler env retry error w = some (.rejected error, w) := by
  apply responseErrorHandler_passthrough
  simp [h401, hretried]

/-- The handler on the 401 error of a marked request. -/
theorem C7_retried_401_propagates_witness :
    responseErrorHandler envAlways401 (api envAlways401 1)
        { sampleError with config := sampleError.config.markRetried } sampleWorld =
      some (.rejected { sampleError with config := sampleError.config.markRetried },
        sampleWorld) :=
  C7_retried_401_propagates envAlways401 (api envAlways401 1)
    { sampleError with config := sampleError.config.markRetried } sampleWorld (by decide)
    (by decide)

/-- C8: pass-through. The success handler returns the response it is given; a call of
`api` whose request succeeds resolves with that response, and a call whose request fails
with anything but a 401 response (another status, or no response at all) rejects with
that error; in both cases the world differs from the initial one only by the one request
in the log. On an error that is not a 401 response the error handler rejects with the
error it was given and leaves the world as it is. -/
theorem C8_pass_through (env : Env) :
    (∀ response, responseHandler response = response) ∧
    (∀ fuel config w response,
      settle (requestInterceptor w.localStorage config)
          (env.backend w.log (requestInterceptor w.localStorage config)) = .ok response →
      api env (fuel + 1) config w =
        some (.resolved response,
          { w with log := w.log ++ [.dispatched (requestInterceptor w.localStorage config)] })) ∧
    (∀ fuel config w error,
      settle (requestInterceptor w.localStorage config)
          (env.backend w.log (requestInterceptor w.localStorage config)) = .error error →
      error.response.map (·.status) ≠ some 401 →
      api env (fuel + 1) config w =
        some (.rejected error,
          { w with log := w.log ++ [.dispatched (requestInterceptor w.localStorage config)] })) ∧
    (∀ retry error w, error.response.map (·.status) ≠ some 401 →
      responseErrorHandler env retry error w = some (.rejected error, w)) := by
  refine ⟨fun _ => rfl, ?_, ?_, ?_⟩
  · intro fuel config w response h
    unfold api
    simp only [h]
    rfl
  · intro fuel config w error h hne
    unfold api
    simp only [h]
    rw [responseErrorHandler_passthrough]
    · rfl
    · simp [hne]
  · intro retry error w hne
    apply responseErrorHandler_passthrough
    simp [hne]

/-- A successful request, a network error and a 500 error. -/
theorem C8_pass_through_witness :
    api envHealthy 1 sampleConfig sampleWorld =
        some (.resolved ⟨200, { noData with body := "clients" }⟩,
          { sampleWorld with log := sampleWorld.log ++
            [.dispatched (requestInterceptor sampleWorld.localStorage sampleConfig)] }) ∧
    responseErrorHandler envAlways401 (api envAlways401 1)
        ⟨"Network Error", sampleConfig, none⟩ sampleWorld =
      some (.rejected ⟨"Network Error", sampleConfig, none⟩, sampleWorld) ∧
    responseErrorHandler envAlways401 (api envAlways401 1)
        ⟨"Request failed", sampleConfig, some ⟨500, noData⟩⟩ sampleWorld =
      some (.rejected ⟨"Request failed", sampleConfig, some ⟨500, noData⟩⟩, sampleWorld) :=
  ⟨(C8_pass_through envHealthy).2.1 0 sampleConfig sampleWorld _ rfl,
    (C8_pass_through envAlways401).2.2.2 _ ⟨"Network Error", sampleConfig, none⟩ sampleWorld
      (by decide),
    (C8_pass_through envAlways401).2.2.2 _ ⟨"Request failed", sampleConfig, some ⟨500, noData⟩⟩
      sampleWorld (by decide)⟩

/-- C9: the refresh call. On a 401 of a request that is not yet marked, with the refresh
token `r` stored, the handler returns and its first effect is the refresh call, the only
one it makes: a request of the global axios (not of `api`, so no request interceptor runs
on it) to `API_URL` followed by `/auth/refresh`, with `Authorization` equal to `Bearer `
followed by `r`. Whatever access token `a` is stored, if it differs from `r` the header is
not `Bearer a`, whereas the request interceptor would have replaced it by that. -/
theorem C9_refresh_call_uses_refresh_token (env : Env) (fuel : Nat) (error : AxiosError)
    (w : World) (r : String)
    (h401 : error.response.map (·.status) = some 401)
    (hfresh : error.config._retry = false)
    (hr : w.localStorage.refreshToken = some r) (hr0 : r ≠ "") :
    ∃ res w' rest,
      responseErrorHandler env (api env (fuel + 1)) error w = some (res, w') ∧
      w'.log = w.log ++ .refreshCall (refreshConfig env r) :: rest ∧
      refreshCalls rest = [] ∧
      (refreshConfig env r).headers.Authorization = some ("Bearer " ++ r) ∧
      (refreshConfig env r).url = API_URL env ++ "/auth/refresh" ∧
      (∀ a, w.localStorage.accessToken = some a → a ≠ r →
        (refreshConfig env r).headers.Authorization ≠ some ("Bearer " ++ a)) ∧
      (∀ a, w.localStorage.accessToken = some a → a ≠ "" → a ≠ r →
        requestInterceptor w.localStorage (refreshConfig env r) ≠ refreshConfig env r) := by
  have hne : ∀ a, a ≠ r →
      (refreshConfig env r).headers.Authorization ≠ some ("Bearer " ++ a) := by
    intro a ha h
    simp only [refreshConfig, Option.some.injEq] at h
    exact ha (bearer_injective h).symm
  have hint : ∀ a, w.localStorage.accessToken = some a → a ≠ "" → a ≠ r →
      requestInterceptor w.localStorage (refreshConfig env r) ≠ refreshConfig env r := by
    intro a hs ha0 ha h
    apply hne a ha
    rw [← h]
    unfold requestInterceptor
    simp only [hs, truthy_some ha0, if_true]
    rfl
  cases hset : settle (refreshConfig env r)
      (env.refreshBackend w.log (refreshConfig env r)) with
  | error refreshError =>
    rw [responseErrorHandler_refresh_failed env _ error w r refreshError h401 hfresh hr hr0
      hset]
    exact ⟨_, _, [.redirect "/login"], rfl, by simp, by simp [refreshCalls], rfl, rfl,
      fun a _ ha => hne a ha, hint⟩
  | ok response =>
    obtain ⟨status, data, hrep, hok⟩ := settle_ok hset
    rw [responseErrorHandler_refreshed env fuel error w r status data h401 hfresh hr hr0
      hrep hok]
    exact ⟨_, _, [.dispatched (error.config.markRetried.setAuthorization
        ("Bearer " ++ jsString data.access_token))], rfl, by simp, by simp [refreshCalls],
      rfl, rfl, fun a _ ha => hne a ha, hint⟩

/-- The refresh call on a browser that holds the access token `old` and the refresh token `r1`. -/
theorem C9_refresh_call_uses_refresh_token_witness :
    ∃ res w' rest,
      responseErrorHandler envExpired (api envExpired 1) sampleError sampleWorld
        = some (res, w') ∧
      w'.log = sampleWorld.log ++ .refreshCall (refreshConfig envExpired "r1") :: rest ∧
      refreshCalls rest = [] ∧
      (refreshConfig envExpired "r1").headers.Authorization = some ("Bearer " ++ "r1") ∧
      (refreshConfig envExpired "r1").url = API_URL envExpired ++ "/auth/refresh" ∧
      (∀ a, sampleWorld.localStorage.accessToken = some a → a ≠ "r1" →
        (refreshConfig envExpired "r1").headers.Authorization ≠ some ("Bearer " ++ a)) ∧
      (∀ a, sampleWorld.localStorage.accessToken = some a → a ≠ "" → a ≠ "r1" →
        requestInterceptor sampleWorld.localStorage (refreshConfig envExpired "r1") ≠
          refreshConfig envExpired "r1") :=
  C9_refresh_call_uses_refresh_token envExpired 0 sampleError sampleWorld "r1" (by decide)
    (by decide) rfl (by decide)

/-! ## Session start -/

/-- C10: session start with no access token stored (the entry is absent or empty). For
every bound, `fetchCurrentUser` on the initial state returns with `user` absent and
`loading` false, and the world, its log of requests included, is the one it started from:
no identity check is sent. -/
theorem C10_no_token_ends_anonymous (env : Env) (fuel : Nat) (w : World)
    (h : truthy w.localStorage.accessToken = false) :
    fetchCurrentUser env fuel initialAuthState w =
      some ({ user := none, loading := false, error := none }, w) := by
  unfold fetchCurrentUser
  simp only [h]
  rfl

/-- Session start on a browser that holds nothing. -/
theorem C10_no_token_ends_anonymous_witness :
    truthy anonymousWorld.localStorage.accessToken = false ∧
    fetchCurrentUser envHealthy 0 initialAuthState anonymousWorld =
      some ({ user := none, loading := false, error := none }, anonymousWorld) :=
  ⟨rfl, C10_no_token_ends_anonymous envHealthy 0 anonymousWorld rfl⟩

/-! ## Auxiliary facts on the session operations -/

/-- A request answered with a valid status resolves with that response, and the world gains
only the request. -/
theorem api_reply_ok (env : Env) (fuel : Nat) (config : Config) (w : World) (status : Nat)
    (data : Data)
    (hreply : env.backend w.log (requestInterceptor w.localStorage config) =
      .response status data)
    (hok : validateStatus status = true) :
    api env (fuel + 1) config w =
      some (.resolved ⟨status, data⟩,
        w.emit (.dispatched (requestInterceptor w.localStorage config))) := by
  unfold api
  simp only [hreply, settle, hok, if_true]
  rfl

/-- A request that fails with anything but a 401 response rejects with that error, and the
world gains only the request. -/
theorem api_error_passthrough (env : Env) (fuel : Nat) (config : Config) (w : World)
    (error : AxiosError)
    (h : settle (requestInterceptor w.localStorage config)
      (env.backend w.log (requestInterceptor w.localStorage config)) = .error error)
    (hne : error.response.map (·.status) ≠ some 401) :
    api env (fuel + 1) config w =
      some (.rejected error,
        w.emit (.dispatched (requestInterceptor w.localStorage config))) := by
  unfold api
  simp only [h]
  rw [responseErrorHandler_passthrough]
  simp [hne]

/-- With no refresh token available a call of `api` returns for every positive bound, and
the storage is as before except that the access token may have been removed. -/
theorem api_no_refresh_token (env : Env) (fuel : Nat) (config : Config) (w : World)
    (hr : truthy w.localStorage.refreshToken = false) :
    ∃ res w', api env (fuel + 1) config w = some (res, w') ∧
      (w'.localStorage = w.localStorage ∨
        w'.localStorage = { w.localStorage with accessToken := none }) := by
  unfold api
  simp only []
  split
  · exact ⟨_, _, rfl, Or.inl rfl⟩
  · next error hs =>
    by_cases hc : (decide (error.response.map (·.status) = some 401) &&
        !error.config._retry) = true
    · simp only [Bool.and_eq_true, decide_eq_true_eq, Bool.not_eq_true'] at hc
      rw [responseErrorHandler_no_refresh_token env _ error
        (w.emit (.dispatched (requestInterceptor w.localStorage config))) hc.1 hc.2 hr]
      exact ⟨_, _, rfl, Or.inr rfl⟩
    · rw [responseErrorHandler_passthrough env _ error _ (by simpa using hc)]
      exact ⟨_, _, rfl, Or.inl rfl⟩

theorem errorMessage_server (err : AxiosError) (fallback m : String)
    (h : err.serverMessage = some m) (h0 : m ≠ "") : errorMessage err fallback = m := by
  simp [errorMessage, h, truthy, h0, jsString]

theorem errorMessage_fallback (err : AxiosError) (fallback : String)
    (h : truthy err.serverMessage = false) : errorMessage err fallback = fallback := by
  simp [errorMessage, h]

theorem errorMessage_ne_empty (err : AxiosError) (fallback : String) (h : fallback ≠ "") :
    errorMessage err fallback ≠ "" := by
  unfold errorMessage
  split
  · next ht =>
    cases hm : err.serverMessage with
    | none => rw [hm] at ht; simp [truthy] at ht
    | some m => rw [hm] at ht; simpa [truthy, jsString] using ht
  · exact h

/-- A call of `api` that resolves leaves the location, the refresh token and the theme as
they were. Either nothing else happened than the one request, or the request was
answered 401, the refresh call succeeded, and the storage differs only by the access
token, now the one the refresh call issued. -/
theorem api_resolved_storage (env : Env) (fuel : Nat) (config : Config) (w : World)
    (response : Response) (w1 : World)
    (h : api env (fuel + 2) config w = some (.resolved response, w1)) :
    w1.href = w.href ∧
    w1.localStorage.refreshToken = w.localStorage.refreshToken ∧
    w1.localStorage.theme = w.localStorage.theme ∧
    ((w1.localStorage = w.localStorage ∧
        w1.log = w.log ++ [.dispatched (requestInterceptor w.localStorage config)]) ∨
      (∃ r status refreshed retried,
        w.localStorage.refreshToken = some r ∧
        env.refreshBackend (w.log ++ [.dispatched (requestInterceptor w.localStorage config)])
          (refreshConfig env r) = .response status refreshed ∧
        validateStatus status = true ∧
        w1.localStorage.accessToken = some (jsString refreshed.access_token) ∧
        w1.log = w.log ++ [.dispatched (requestInterceptor w.localStorage config),
          .refreshCall (refreshConfig env r), .dispatched retried])) := by
  unfold api at h
  simp only [] at h
  split at h
  · simp only [Option.some.injEq, Prod.mk.injEq] at h
    rw [← h.2]
    exact ⟨rfl, rfl, rfl, Or.inl ⟨rfl, rfl⟩⟩
  · next error hs =>
    by_cases hc : (decide (error.response.map (·.status) = some 401) &&
        !error.config._retry) = true
    · simp only [Bool.and_eq_true, decide_eq_true_eq, Bool.not_eq_true'] at hc
      obtain ⟨h401, hfresh⟩ := hc
      cases hrt : w.localStorage.refreshToken with
      | none =>
        rw [responseErrorHandler_no_refresh_token env _ error
          (w.emit (.dispatched (requestInterceptor w.localStorage config))) h401 hfresh
          (by show truthy w.localStorage.refreshToken = false; rw [hrt]; rfl)] at h
        simp at h
      | some r =>
        by_cases hr0 : r = ""
        · rw [responseErrorHandler_no_refresh_token env _ error
            (w.emit (.dispatched (requestInterceptor w.localStorage config))) h401 hfresh
            (by show truthy w.localStorage.refreshToken = false; rw [hrt, hr0]; rfl)] at h
          simp at h
        · cases hset : settle (refreshConfig env r)
              (env.refreshBackend
                (w.emit (.dispatched (requestInterceptor w.localStorage config))).log
                (refreshConfig env r)) with
          | error refreshError =>
            rw [responseErrorHandler_refresh_failed env _ error
              (w.emit (.dispatched (requestInterceptor w.localStorage config))) r refreshError
              h401 hfresh hrt hr0 hset] at h
            simp at h
          | ok refreshResponse =>
            obtain ⟨status, refreshed, hrep, hok⟩ := settle_ok hset
            rw [responseErrorHandler_refreshed env fuel error
              (w.emit (.dispatched (requestInterceptor w.localStorage config))) r status
              refreshed h401 hfresh hrt hr0 hrep hok] at h
            simp only [Option.some.injEq, Prod.mk.injEq] at h
            rw [← h.2]
            refine ⟨rfl, hrt, rfl, Or.inr ⟨r, status, refreshed,
              error.config.markRetried.setAuthorization
                ("Bearer " ++ jsString refreshed.access_token), rfl, hrep, hok, rfl, ?_⟩⟩
            simp [World.emit]
    · rw [responseErrorHandler_passthrough env _ error _ (by simpa using hc)] at h
      simp at h

/-! ## Session start with a stored token -/

/-- C11, as stated, fails: when the stored access token has expired and the identity check
succeeds after the token refresh of the pipeline, the session ends authenticated with no
error, and the stored access token is not the one from before but the refreshed one. -/
theorem C11_counterexample :
    sampleWorld.localStorage.accessToken = some "old" ∧
    (fetchCurrentUser envExpiredIdentity 2 initialAuthState sampleWorld).map
        (fun out => (out.1, out.2.localStorage.accessToken,
          out.2.localStorage.refreshToken)) =
      some ({ user := some sampleUser, loading := false, error := none },
        some "new", some "r1") := by
  decide

/-- C11, amended: session start with an access token stored, when the identity check
`api.get('/auth/me')` resolves with a response that carries the user `u`.
`fetchCurrentUser` returns with `user` equal to `u`, `error` absent and `loading` false:
the session is authenticated. The location and the stored refresh token are as before.
When the identity request was answered with a valid status at once, the world differs
from the initial one only by that request in the log, so the storage is unchanged;
otherwise the request was answered 401, the refresh call succeeded, and the stored access
token is the one the refresh call issued. -/
theorem C11_identity_check_success (env : Env) (fuel : Nat) (s : AuthState) (w : World)
    (response : Response) (w1 : World) (u : User)
    (ht : truthy w.localStorage.accessToken = true)
    (hresolved : api env (fuel + 2) (getConfig "/auth/me") w = some (.resolved response, w1))
    (hu : response.data.user = some u) :
    fetchCurrentUser env (fuel + 2) s w =
      some ({ user := some u, loading := false, error := none }, w1) ∧
    isAuthenticated { user := some u, loading := false, error := none } = true ∧
    w1.href = w.href ∧
    w1.localStorage.refreshToken = w.localStorage.refreshToken ∧
    (∀ status data,
      env.backend w.log (requestInterceptor w.localStorage (getConfig "/auth/me")) =
        .response status data →
      validateStatus status = true →
      w1 = { w with log := w.log ++
        [.dispatched (requestInterceptor w.localStorage (getConfig "/auth/me"))] }) ∧
    ((w1.localStorage = w.localStorage ∧
        w1.log = w.log ++
          [.dispatched (requestInterceptor w.localStorage (getConfig "/auth/me"))]) ∨
      (∃ r status refreshed retried,
        w.localStorage.refreshToken = some r ∧
        env.refreshBackend
          (w.log ++ [.dispatched (requestInterceptor w.localStorage (getConfig "/auth/me"))])
          (refreshConfig env r) = .response status refreshed ∧
        validateStatus status = true ∧
        w1.localStorage.accessToken = some (jsString refreshed.access_token) ∧
        w1.log = w.log ++
          [.dispatched (requestInterceptor w.localStorage (getConfig "/auth/me")),
            .refreshCall (refreshConfig env r), .dispatched retried])) := by
  obtain ⟨h1, h2, _, h4⟩ := api_resolved_storage env fuel _ w response w1 hresolved
  refine ⟨?_, rfl, h1, h2, ?_, h4⟩
  · unfold fetchCurrentUser
    simp only [ht, hresolved, hu]
    rfl
  · intro status data hreply hok
    rw [api_reply_ok env (fuel + 1) _ w status data hreply hok] at hresolved
    simp only [Option.some.injEq, Prod.mk.injEq] at hresolved
    rw [← hresolved.2]
    rfl

/-- The identity check of a browser that holds tokens against a backend that answers 200
with `sampleUser`. -/
theorem C11_identity_check_success_witness :
    fetchCurrentUser envLogin 2 initialAuthState sampleWorld =
      some ({ user := some sampleUser, loading := false, error := none },
        sampleWorld.emit (.dispatched
          (requestInterceptor sampleWorld.localStorage (getConfig "/auth/me")))) ∧
    (sampleWorld.emit (.dispatched
      (requestInterceptor sampleWorld.localStorage (getConfig "/auth/me")))).localStorage
        = sampleWorld.localStorage :=
  ⟨(C11_identity_check_success envLogin 0 initialAuthState sampleWorld ⟨200, sampleLoginData⟩
      (sampleWorld.emit (.dispatched
        (requestInterceptor sampleWorld.localStorage (getConfig "/auth/me"))))
      sampleUser (by decide) (by decide) rfl).1,
    rfl⟩

/-- C12: session start with an access token stored, when the identity check fails, that
is, the call `api.get('/auth/me')` rejects, with whatever error (a response of any
status, no response at all, or the error of a failed refresh). `fetchCurrentUser` returns
with `user` absent and `loading` false, and afterwards neither the access token nor the
refresh token is stored. -/
theorem C12_failed_identity_check_clears_tokens (env : Env) (fuel : Nat) (s : AuthState)
    (w : World) (err : AxiosError) (w1 : World)
    (ht : truthy w.localStorage.accessToken = true)
    (hfail : api env fuel (getConfig "/auth/me") w = some (.rejected err, w1)) :
    ∃ s' w', fetchCurrentUser env fuel s w = some (s', w') ∧
      s'.user = none ∧
      s'.loading = false ∧
      isAuthenticated s' = false ∧
      w'.localStorage.accessToken = none ∧
      w'.localStorage.refreshToken = none ∧
      w' = clearTokens w1 := by
  unfold fetchCurrentUser
  simp only [ht, hfail]
  exact ⟨_, _, rfl, rfl, rfl, rfl, rfl, rfl, rfl⟩

/-- The identity check against a backend that does not answer, and against one that
answers 401 to the request and to the refresh call. -/
theorem C12_failed_identity_check_clears_tokens_witness :
    (∃ s' w', fetchCurrentUser envOffline 2 initialAuthState sampleWorld = some (s', w') ∧
      s'.user = none ∧ s'.loading = false ∧ isAuthenticated s' = false ∧
      w'.localStorage.accessToken = none ∧ w'.localStorage.refreshToken = none ∧
      w' = clearTokens (sampleWorld.emit
        (.dispatched (requestInterceptor sampleWorld.localStorage (getConfig "/auth/me"))))) ∧
    (∃ s' w', fetchCurrentUser envRefreshFails 2 initialAuthState sampleWorld = some (s', w') ∧
      s'.user = none ∧ s'.loading = false ∧ isAuthenticated s' = false ∧
      w'.localStorage.accessToken = none ∧ w'.localStorage.refreshToken = none ∧
      w' = clearTokens
        { localStorage := { accessToken := none, refreshToken := none, theme := none }
          href := "/login"
          log := [.dispatched (requestInterceptor sampleWorld.localStorage
              (getConfig "/auth/me")),
            .refreshCall (refreshConfig envRefreshFails "r1"), .redirect "/login"] }) :=
  ⟨C12_failed_identity_check_clears_tokens envOffline 2 initialAuthState sampleWorld
      ⟨"Network Error", requestInterceptor sampleWorld.localStorage (getConfig "/auth/me"),
        none⟩ _ (by decide) (by decide),
    C12_failed_identity_check_clears_tokens envRefreshFails 2 initialAuthState sampleWorld
      ⟨"Request failed", refreshConfig envRefreshFails "r1", some ⟨401, noData⟩⟩ _
      (by decide) (by decide)⟩

/-- C13: session start always ends in a non-loading state. For every stored-token state,
every backend and every bound of at least two, `fetchCurrentUser` returns, from the
initial state (`loading` true) as from any other, and `loading` is false in the state it
returns. -/
theorem C13_initialization_ends_not_loading (env : Env) (fuel : Nat) (s : AuthState)
    (w : World) :
    initialAuthState.loading = true ∧
    (∃ s' w', fetchCurrentUser env (fuel + 2) initialAuthState w = some (s', w') ∧
      s'.loading = false) ∧
    (∃ s' w', fetchCurrentUser env (fuel + 2) s w = some (s', w') ∧ s'.loading = false) := by
  have key : ∀ s : AuthState, ∃ s' w', fetchCurrentUser env (fuel + 2) s w = some (s', w') ∧
      s'.loading = false := by
    intro s
    unfold fetchCurrentUser
    by_cases ht : truthy w.localStorage.accessToken = true
    · obtain ⟨res, w1, rest, hapi, _⟩ := api_returns env fuel (getConfig "/auth/me") w
      simp only [ht, hapi]
      cases res with
      | resolved response => exact ⟨_, _, rfl, rfl⟩
      | rejected err => exact ⟨_, _, rfl, rfl⟩
    · simp only [ht]
      exact ⟨_, _, rfl, rfl⟩
  exact ⟨rfl, key initialAuthState, key s⟩

/-! ## Login and logout -/

/-- C14: login success. When the authentication call `api.post('/auth/login', ...)`
resolves with a response whose body carries the access token `a`, the (non-empty) refresh
token `r` and the user `u`, `login` returns the result `success: true`; afterwards `a` is
stored under `accessToken` and `r` under `refreshToken`, `user` is `u` and `error` is
absent: the session is authenticated, whereas a session with no user was not. Apart from
the two tokens the world is the one the call left. -/
theorem C14_login_success (env : Env) (fuel : Nat) (email password : String) (s : AuthState)
    (w : World) (response : Response) (w1 : World) (a r : String) (u : User)
    (hresolved : api env fuel
        (postConfig "/auth/login" (jsonObject [("email", email), ("password", password)])) w =
      some (.resolved response, w1))
    (ha : response.data.access_token = some a)
    (hr : response.data.refresh_token = some r) (hr0 : r ≠ "")
    (hu : response.data.user = some u) :
    ∃ s' w', login env fuel email password s w =
        some ({ success := true, error := none }, s', w') ∧
      w'.localStorage.accessToken = some a ∧
      w'.localStorage.refreshToken = some r ∧
      w'.localStorage.theme = w1.localStorage.theme ∧
      w'.href = w1.href ∧
      w'.log = w1.log ∧
      s' = { user := some u, loading := s.loading, error := none } ∧
      isAuthenticated s' = true ∧
      (s.user = none → isAuthenticated s = false) := by
  unfold login
  simp only [hresolved, ha, hr, hu, setTokens, truthy_some hr0, jsString, if_true]
  refine ⟨_, _, rfl, rfl, rfl, rfl, rfl, rfl, rfl, rfl, ?_⟩
  intro h
  simp [isAuthenticated, h]

/-- A login on an empty browser against a backend that answers 200 with tokens and
`sampleUser`. -/
theorem C14_login_success_witness :
    ∃ s' w', login envLogin 1 "ayla@example.com" "secret" anonymousSession anonymousWorld =
        some ({ success := true, error := none }, s', w') ∧
      w'.localStorage.accessToken = some "a1" ∧
      w'.localStorage.refreshToken = some "r1" ∧
      w'.localStorage.theme = (anonymousWorld.emit
        (.dispatched (postConfig "/auth/login" sampleLoginBody))).localStorage.theme ∧
      w'.href = (anonymousWorld.emit
        (.dispatched (postConfig "/auth/login" sampleLoginBody))).href ∧
      w'.log = (anonymousWorld.emit
        (.dispatched (postConfig "/auth/login" sampleLoginBody))).log ∧
      s' = { user := some sampleUser, loading := anonymousSession.loading, error := none } ∧
      isAuthenticated s' = true ∧
      (anonymousSession.user = none → isAuthenticated anonymousSession = false) :=
  C14_login_success envLogin 1 "ayla@example.com" "secret" anonymousSession anonymousWorld
    ⟨200, sampleLoginData⟩
    (anonymousWorld.emit (.dispatched (postConfig "/auth/login" sampleLoginBody)))
    "a1" "r1" sampleUser (by decide) rfl rfl (by decide) rfl

/-- C15, as stated, fails: a login that the backend rejects changes the `error` field of
the session, from absent to the message returned. -/
theorem C15_counterexample :
    anonymousSession.error = none ∧
    (api envRejects 2
        (postConfig "/auth/login" (jsonObject [("email", "ayla@example.com"),
          ("password", "wrong")])) anonymousWorld).map (fun out => out.1) =
      some (.rejected ⟨"Request failed",
        (postConfig "/auth/login" (jsonObject [("email", "ayla@example.com"),
          ("password", "wrong")])).markRetried,
        some ⟨401, { noData with message := some "Invalid credentials" }⟩⟩) ∧
    (login envRejects 2 "ayla@example.com" "wrong" anonymousSession anonymousWorld).map
        (fun out => out.2.1.error) = some (some "Invalid credentials") := by
  decide

/-- C15, amended: when the authentication call fails, `login` returns `success: false`
with the error message, leaves `user` and `loading` as they were and sets the `error`
field to that message; a session that was anonymous remains anonymous. The world is the
one the call of `api` left: when no token was stored before (no access token entry, no
refresh token available) the storage is as before. -/
theorem C15_login_failure_sets_only_error (env : Env) (fuel : Nat) (email password : String)
    (s : AuthState) (w : World) (err : AxiosError) (w1 : World)
    (hfail : api env (fuel + 1)
        (postConfig "/auth/login" (jsonObject [("email", email), ("password", password)])) w =
      some (.rejected err, w1)) :
    ∃ m s', login env (fuel + 1) email password s w =
        some ({ success := false, error := some m }, s', w1) ∧
      m = errorMessage err "Giriş başarısız" ∧
      s' = { user := s.user, loading := s.loading, error := some m } ∧
      (s.user = none → isAuthenticated s' = false) ∧
      (w.localStorage.accessToken = none → truthy w.localStorage.refreshToken = false →
        w1.localStorage = w.localStorage) := by
  unfold login
  simp only [hfail]
  refine ⟨_, _, rfl, rfl, rfl, ?_, ?_⟩
  · intro h
    simp [isAuthenticated, h]
  · intro ha hr
    obtain ⟨res, w', hapi, hls⟩ := api_no_refresh_token env fuel
      (postConfig "/auth/login" (jsonObject [("email", email), ("password", password)])) w hr
    rw [hapi] at hfail
    simp only [Option.some.injEq, Prod.mk.injEq] at hfail
    rw [← hfail.2]
    rcases hls with h | h
    · exact h
    · rw [h, ← ha]

/-- A login with a wrong password on an empty browser. -/
theorem C15_login_failure_sets_only_error_witness :
    ∃ m s', login envRejects 2 "ayla@example.com" "wrong" anonymousSession anonymousWorld =
        some ({ success := false, error := some m }, s',
          { localStorage := anonymousWorld.localStorage
            href := "/login"
            log := [.dispatched (postConfig "/auth/login"
              (jsonObject [("email", "ayla@example.com"), ("password", "wrong")])),
              .redirect "/login"] }) ∧
      m = errorMessage ⟨"Request failed",
        (postConfig "/auth/login" (jsonObject [("email", "ayla@example.com"),
          ("password", "wrong")])).markRetried,
        some ⟨401, { noData with message := some "Invalid credentials" }⟩⟩ "Giriş başarısız" ∧
      s' = { user := none, loading := false, error := some m } ∧
      (anonymousSession.user = none → isAuthenticated s' = false) ∧
      (anonymousWorld.localStorage.accessToken = none →
        truthy anonymousWorld.localStorage.refreshToken = false →
        ({ localStorage := anonymousWorld.localStorage
           href := "/login"
           log := [.dispatched (postConfig "/auth/login"
             (jsonObject [("email", "ayla@example.com"), ("password", "wrong")])),
             .redirect "/login"] } : World).localStorage = anonymousWorld.localStorage) :=
  C15_login_failure_sets_only_error envRejects 1 "ayla@example.com" "wrong" anonymousSession
    anonymousWorld _ _ (by decide)

/-- C16: `login` never throws. For every backend and every bound of at least two it
returns a result object. Either the authentication call resolved and the result is
`success: true`, or the call rejected with an error `err` and the result is
`success: false` with the message `m`: the `message` field of the body of `err` when that
field is present and non-empty, the text `Giriş başarısız` otherwise; `m` is never
empty. -/
theorem C16_login_returns_result (env : Env) (fuel : Nat) (email password : String)
    (s : AuthState) (w : World) :
    ∃ result s' w', login env (fuel + 2) email password s w = some (result, s', w') ∧
      ((∃ response w1, api env (fuel + 2)
            (postConfig "/auth/login" (jsonObject [("email", email), ("password", password)]))
            w = some (.resolved response, w1) ∧
          result = { success := true, error := none }) ∨
        (∃ err w1 m, api env (fuel + 2)
            (postConfig "/auth/login" (jsonObject [("email", email), ("password", password)]))
            w = some (.rejected err, w1) ∧
          result = { success := false, error := some m } ∧
          m ≠ "" ∧
          (∀ text, err.serverMessage = some text → text ≠ "" → m = text) ∧
          (truthy err.serverMessage = false → m = "Giriş başarısız"))) := by
  obtain ⟨res, w1, rest, hapi, _⟩ := api_returns env fuel
    (postConfig "/auth/login" (jsonObject [("email", email), ("password", password)])) w
  unfold login
  simp only [hapi]
  cases res with
  | resolved response =>
    exact ⟨_, _, _, rfl, Or.inl ⟨response, w1, rfl, rfl⟩⟩
  | rejected err =>
    refine ⟨_, _, _, rfl, Or.inr ⟨err, w1, errorMessage err "Giriş başarısız", rfl, rfl,
      errorMessage_ne_empty err _ (by decide), ?_, ?_⟩⟩
    · intro text h h0
      exact errorMessage_server err _ text h h0
    · intro h
      exact errorMessage_fallback err _ h

/-- C17: `logout` ends anonymous. For every prior session state, every backend (whatever
it answers to the logout request) and every bound of at least two, `logout` returns
normally; in the state it returns `user` is absent, and afterwards neither the access
token nor the refresh token is stored. -/
theorem C17_logout_ends_anonymous (env : Env) (fuel : Nat) (s : AuthState) (w : World) :
    ∃ s' w', logout env (fuel + 2) s w = some (s', w') ∧
      s'.user = none ∧
      isAuthenticated s' = false ∧
      s'.loading = s.loading ∧
      s'.error = s.error ∧
      w'.localStorage.accessToken = none ∧
      w'.localStorage.refreshToken = none := by
  obtain ⟨res, w1, rest, hapi, _⟩ := api_returns env fuel (postConfig "/auth/logout" "") w
  unfold logout
  simp only [hapi]
  cases res with
  | resolved response => exact ⟨_, _, rfl, rfl, rfl, rfl, rfl, rfl, rfl⟩
  | rejected err => exact ⟨_, _, rfl, rfl, rfl, rfl, rfl, rfl, rfl⟩

/-! ## Password change and profile update -/

/-- C18, as stated, fails: a password change sent with an expired access token is first
answered 401, the pipeline refreshes the token and sends the request again, and the call
returns `success: true`; the stored access token is then the refreshed one, not the one
from before. -/
theorem C18_counterexample :
    sampleWorld.localStorage.accessToken = some "old" ∧
    envExpired.backend sampleWorld.log (requestInterceptor sampleWorld.localStorage
        (postConfig "/auth/change-password" (jsonObject
          [("current_password", "old-pw"), ("new_password", "new-pw")]))) =
      .response 401 noData ∧
    (changePassword envExpired 2 "old-pw" "new-pw" sampleSession sampleWorld).map
        (fun out => (out.1, out.2.1, out.2.2.localStorage.accessToken,
          out.2.2.localStorage.refreshToken)) =
      some ({ success := true, error := none }, sampleSession, some "new", some "r1") := by
  decide

/-- C18, amended: `changePassword`. For every current and new password, every backend and
every bound of at least two the call returns and hands the session state back as it
received it. When the call `api.post('/auth/change-password', ...)` resolves, the result
is `success: true` and the location and the stored refresh token are as before; if the
request was answered with a valid status at once, the world differs from the initial one
only by that request, so the stored tokens are unchanged; otherwise the request was
answered 401, the refresh call succeeded and the stored access token is the refreshed
one. When the call rejects with an error `err`, the result is `success: false` with the
`message` field of the body of `err` when that is present and non-empty, and with
`Şifre değiştirilemedi` otherwise. -/
theorem C18_changePassword_keeps_session (env : Env) (fuel : Nat)
    (currentPassword newPassword : String) (s : AuthState) (w : World) :
    (∃ result w', changePassword env (fuel + 2) currentPassword newPassword s w =
      some (result, s, w')) ∧
    (∀ response w1,
      api env (fuel + 2)
        (postConfig "/auth/change-password" (jsonObject
          [("current_password", currentPassword), ("new_password", newPassword)])) w =
        some (.resolved response, w1) →
      changePassword env (fuel + 2) currentPassword newPassword s w =
          some ({ success := true, error := none }, s, w1) ∧
        w1.href = w.href ∧
        w1.localStorage.refreshToken = w.localStorage.refreshToken ∧
        (∀ status data,
          env.backend w.log (requestInterceptor w.localStorage
            (postConfig "/auth/change-password" (jsonObject
              [("current_password", currentPassword), ("new_password", newPassword)]))) =
            .response status data →
          validateStatus status = true →
          w1 = { w with log := w.log ++ [.dispatched (requestInterceptor w.localStorage
            (postConfig "/auth/change-password" (jsonObject
              [("current_password", currentPassword), ("new_password", newPassword)])))] }) ∧
        ((w1.localStorage = w.localStorage ∧
            w1.log = w.log ++ [.dispatched (requestInterceptor w.localStorage
              (postConfig "/auth/change-password" (jsonObject
                [("current_password", currentPassword), ("new_password", newPassword)])))]) ∨
          (∃ r status refreshed retried,
            w.localStorage.refreshToken = some r ∧
            env.refreshBackend
              (w.log ++ [.dispatched (requestInterceptor w.localStorage
                (postConfig "/auth/change-password" (jsonObject
                  [("current_password", currentPassword), ("new_password", newPassword)])))])
              (refreshConfig env r) = .response status refreshed ∧
            validateStatus status = true ∧
            w1.localStorage.accessToken = some (jsString refreshed.access_token) ∧
            w1.log = w.log ++ [.dispatched (requestInterceptor w.localStorage
                (postConfig "/auth/change-password" (jsonObject
                  [("current_password", currentPassword), ("new_password", newPassword)]))),
              .refreshCall (refreshConfig env r), .dispatched retried]))) ∧
    (∀ err w1,
      api env (fuel + 2)
        (postConfig "/auth/change-password" (jsonObject
          [("current_password", currentPassword), ("new_password", newPassword)])) w =
        some (.rejected err, w1) →
      ∃ m, changePassword env (fuel + 2) currentPassword newPassword s w =
          some ({ success := false, error := some m }, s, w1) ∧
        (∀ text, err.serverMessage = some text → text ≠ "" → m = text) ∧
        (truthy err.serverMessage = false → m = "Şifre değiştirilemedi")) := by
  refine ⟨?_, ?_, ?_⟩
  · obtain ⟨res, w1, rest, hapi, _⟩ := api_returns env fuel
      (postConfig "/auth/change-password" (jsonObject
        [("current_password", currentPassword), ("new_password", newPassword)])) w
    unfold changePassword
    simp only [hapi]
    cases res with
    | resolved response => exact ⟨_, _, rfl⟩
    | rejected err => exact ⟨_, _, rfl⟩
  · intro response w1 hresolved
    obtain ⟨h1, h2, _, h4⟩ := api_resolved_storage env fuel _ w response w1 hresolved
    refine ⟨?_, h1, h2, ?_, h4⟩
    · unfold changePassword
      simp only [hresolved]
    · intro status data hreply hok
      rw [api_reply_ok env (fuel + 1) _ w status data hreply hok] at hresolved
      simp only [Option.some.injEq, Prod.mk.injEq] at hresolved
      rw [← hresolved.2]
      rfl
  · intro err w1 hfail
    unfold changePassword
    simp only [hfail]
    exact ⟨_, rfl, fun text h h0 => errorMessage_server err _ text h h0,
      fun h => errorMessage_fallback err _ h⟩

/-- A password change that the backend accepts at once, and one the network drops. -/
theorem C18_changePassword_keeps_session_witness :
    changePassword envHealthy 2 "old-pw" "new-pw" sampleSession sampleWorld =
        some ({ success := true, error := none }, sampleSession,
          sampleWorld.emit (.dispatched (requestInterceptor sampleWorld.localStorage
            (postConfig "/auth/change-password" (jsonObject
              [("current_password", "old-pw"), ("new_password", "new-pw")]))))) ∧
    (∃ m, changePassword envOffline 2 "old-pw" "new-pw" sampleSession sampleWorld =
        some ({ success := false, error := some m }, sampleSession,
          sampleWorld.emit (.dispatched (requestInterceptor sampleWorld.localStorage
            (postConfig "/auth/change-password" (jsonObject
              [("current_password", "old-pw"), ("new_password", "new-pw")]))))) ∧
      (∀ text, (⟨"Network Error", requestInterceptor sampleWorld.localStorage
            (postConfig "/auth/change-password" (jsonObject
              [("current_password", "old-pw"), ("new_password", "new-pw")])), none⟩ :
          AxiosError).serverMessage = some text → text ≠ "" → m = text) ∧
      (truthy (⟨"Network Error", requestInterceptor sampleWorld.localStorage
            (postConfig "/auth/change-password" (jsonObject
              [("current_password", "old-pw"), ("new_password", "new-pw")])), none⟩ :
          AxiosError).serverMessage = false → m = "Şifre değiştirilemedi")) :=
  ⟨((C18_changePassword_keeps_session envHealthy 0 "old-pw" "new-pw" sampleSession
      sampleWorld).2.1 ⟨200, { noData with body := "clients" }⟩ _ (by decide)).1,
    (C18_changePassword_keeps_session envOffline 0 "old-pw" "new-pw" sampleSession
      sampleWorld).2.2 _ _ (by decide)⟩

/-- C19, as stated, fails: an update that is answered 401 while the refresh call fails too
returns `success: false`, and the stored tokens are not as before: both are removed. -/
theorem C19_counterexample :
    sampleWorld.localStorage.accessToken = some "old" ∧
    sampleWorld.localStorage.refreshToken = some "r1" ∧
    (updateProfile envRefreshFails 2 (jsonObject [("name", "Ayla")]) sampleSession
        sampleWorld).map
        (fun out => (out.1, out.2.1, out.2.2.localStorage.accessToken,
          out.2.2.localStorage.refreshToken)) =
      some ({ success := false, error := some "Profil güncellenemedi" }, sampleSession,
        none, none) := by
  decide

/-- C19, amended: `updateProfile`. With no current user nothing is sent and the result is
`success: false` with the fallback message, state and world unchanged. With a current
user the call returns for every bound of at least two and its first effect is the request
`PUT /users/<id>` for the id of that user, with the patch as body. When the call resolves,
`user` is replaced by the user of the response and the result is `success: true`. When it
rejects, the result is `success: false` with the error message and the session state is
unchanged; when moreover the failure of the request is not a 401 response, the world
differs from the initial one only by that request in the log, so the stored tokens are
unchanged. -/
theorem C19_updateProfile (env : Env) (fuel : Nat) (data : String) (s : AuthState)
    (w : World) :
    (s.user = none →
      updateProfile env fuel data s w =
        some ({ success := false, error := some "Profil güncellenemedi" }, s, w)) ∧
    (∀ user, s.user = some user →
      (∃ result s' w' rest, updateProfile env (fuel + 2) data s w = some (result, s', w') ∧
        w'.log = w.log ++ .dispatched (requestInterceptor w.localStorage
          (putConfig ("/users/" ++ toString user.id) data)) :: rest) ∧
      (∀ response w1,
        api env (fuel + 2) (putConfig ("/users/" ++ toString user.id) data) w =
          some (.resolved response, w1) →
        updateProfile env (fuel + 2) data s w =
          some ({ success := true, error := none }, { s with user := response.data.user },
            w1)) ∧
      (∀ err w1,
        api env (fuel + 2) (putConfig ("/users/" ++ toString user.id) data) w =
          some (.rejected err, w1) →
        updateProfile env (fuel + 2) data s w =
          some ({ success := false, error := some (errorMessage err "Profil güncellenemedi") },
            s, w1)) ∧
      (∀ err,
        settle (requestInterceptor w.localStorage
            (putConfig ("/users/" ++ toString user.id) data))
          (env.backend w.log (requestInterceptor w.localStorage
            (putConfig ("/users/" ++ toString user.id) data))) = .error err →
        err.response.map (·.status) ≠ some 401 →
        updateProfile env (fuel + 2) data s w =
          some ({ success := false, error := some (errorMessage err "Profil güncellenemedi") },
            s, { w with log := w.log ++ [.dispatched (requestInterceptor w.localStorage
              (putConfig ("/users/" ++ toString user.id) data))] }))) := by
  refine ⟨?_, ?_⟩
  · intro h
    unfold updateProfile
    simp only [h]
  · intro user h
    refine ⟨?_, ?_, ?_, ?_⟩
    · obtain ⟨res, w1, rest, hapi, hlog⟩ := api_returns env fuel
        (putConfig ("/users/" ++ toString user.id) data) w
      unfold updateProfile
      simp only [h, hapi]
      cases res with
      | resolved response => exact ⟨_, _, _, rest, rfl, hlog⟩
      | rejected err => exact ⟨_, _, _, rest, rfl, hlog⟩
    · intro response w1 hapi
      unfold updateProfile
      simp only [h, hapi]
    · intro err w1 hapi
      unfold updateProfile
      simp only [h, hapi]
    · intro err hs hne
      unfold updateProfile
      simp only [h]
      rw [api_error_passthrough env (fuel + 1) _ w err hs hne]
      rfl

/-- An update with nobody logged in, one the backend accepts, and one the network
drops. -/
theorem C19_updateProfile_witness :
    updateProfile envHealthy 0 (jsonObject [("name", "Ayla")]) anonymousSession sampleWorld =
        some ({ success := false, error := some "Profil güncellenemedi" }, anonymousSession,
          sampleWorld) ∧
    updateProfile envLogin 2 (jsonObject [("name", "Ayla")]) sampleSession sampleWorld =
        some ({ success := true, error := none },
          { sampleSession with user := some sampleUser },
          sampleWorld.emit (.dispatched (requestInterceptor sampleWorld.localStorage
            (putConfig ("/users/" ++ toString sampleUser.id) (jsonObject [("name", "Ayla")]))))) ∧
    updateProfile envOffline 2 (jsonObject [("name", "Ayla")]) sampleSession sampleWorld =
        some (⟨false, some (errorMessage ⟨"Network Error",
              requestInterceptor sampleWorld.localStorage
                (putConfig ("/users/" ++ toString sampleUser.id)
                  (jsonObject [("name", "Ayla")])), none⟩ "Profil güncellenemedi")⟩,
          sampleSession,
          { sampleWorld with log := sampleWorld.log ++
            [.dispatched (requestInterceptor sampleWorld.localStorage
              (putConfig ("/users/" ++ toString sampleUser.id)
                (jsonObject [("name", "Ayla")])))] }) :=
  ⟨(C19_updateProfile envHealthy 0 (jsonObject [("name", "Ayla")]) anonymousSession
      sampleWorld).1 rfl,
    ((C19_updateProfile envLogin 0 (jsonObject [("name", "Ayla")]) sampleSession
      sampleWorld).2 sampleUser rfl).2.1
      ⟨200, sampleLoginData⟩ _ rfl,
    ((C19_updateProfile envOffline 0 (jsonObject [("name", "Ayla")]) sampleSession
      sampleWorld).2 sampleUser rfl).2.2.2 _ rfl (by decide)⟩

/-! ## Credential changes and the user -/

theorem setTokens_accessToken (accessToken refreshToken : Option String) (w : World) :
    (setTokens accessToken refreshToken w).localStorage.accessToken =
      some (jsString accessToken) := by
  unfold setTokens
  dsimp only
  split <;> rfl

/-- C20, as stated, fails: in a password change whose request is answered 401, the token
refresh of the pipeline replaces the stored access token `old` by `new`, and the user of
the session is the one kept from before; no response of that step carries a user. -/
theorem C20_counterexample :
    sampleWorld.localStorage.accessToken = some "old" ∧
    sampleSession.user = some sampleUser ∧
    (changePassword envExpired 2 "old-pw" "new-pw" sampleSession sampleWorld).map
        (fun out => (out.2.2.localStorage.accessToken, out.2.1.user,
          refreshCalls out.2.2.log)) =
      some (some "new", some sampleUser, [refreshConfig envExpired "r1"]) ∧
    envExpired.refreshBackend
        [.dispatched (requestInterceptor sampleWorld.localStorage
          (postConfig "/auth/change-password" (jsonObject
            [("current_password", "old-pw"), ("new_password", "new-pw")])))]
        (refreshConfig envExpired "r1") =
      .response 200 { noData with access_token := some "new" } ∧
    ({ noData with access_token := some "new" } : Data).user = none := by
  decide

/-- C20, amended: the session operations that end with an access token stored by
themselves set `user` from the response that carried it. A `login` that returns
`success: true` stores the access token of the authentication response and sets `user`
to the user of that same response. A session start that ends with an access token stored
that differs from the one before has resolved its identity check, and `user` is the user
of that response. A `logout` ends with no access token and no user. The token refresh of
the pipeline is not such a step: it stores the new access token inside the call of `api`,
which has no access to the session, and an operation that sets no user, as
`changePassword`, hands the session state back as it was, whatever happened to the
stored token. -/
theorem C20_session_operations_derive_user (env : Env) (fuel : Nat) (s : AuthState)
    (w : World) :
    (∀ email password result s' w',
      login env fuel email password s w = some (result, s', w') →
      result.success = true →
      ∃ response w1,
        api env fuel
          (postConfig "/auth/login" (jsonObject [("email", email), ("password", password)]))
          w = some (.resolved response, w1) ∧
        w'.localStorage.accessToken = some (jsString response.data.access_token) ∧
        s'.user = response.data.user) ∧
    (∀ s' w',
      fetchCurrentUser env fuel s w = some (s', w') →
      w'.localStorage.accessToken ≠ w.localStorage.accessToken →
      w'.localStorage.accessToken ≠ none →
      ∃ response,
        api env fuel (getConfig "/auth/me") w = some (.resolved response, w') ∧
        s'.user = response.data.user) ∧
    (∀ s' w',
      logout env fuel s w = some (s', w') →
      w'.localStorage.accessToken = none ∧ s'.user = none) ∧
    (∀ currentPassword newPassword result s' w',
      changePassword env fuel currentPassword newPassword s w = some (result, s', w') →
      s' = s) := by
  refine ⟨?_, ?_, ?_, ?_⟩
  · intro email password result s' w' h hs
    unfold login at h
    cases hapi : api env fuel
        (postConfig "/auth/login" (jsonObject [("email", email), ("password", password)])) w with
    | none => simp [hapi] at h
    | some out =>
      obtain ⟨res, w1⟩ := out
      cases res with
      | resolved response =>
        simp only [hapi, Option.some.injEq, Prod.mk.injEq] at h
        obtain ⟨_, h2, h3⟩ := h
        refine ⟨response, w1, rfl, ?_, ?_⟩
        · rw [← h3]
          exact setTokens_accessToken _ _ _
        · rw [← h2]
      | rejected err =>
        simp only [hapi, Option.some.injEq, Prod.mk.injEq] at h
        rw [← h.1] at hs
        simp at hs
  · intro s' w' h hne hsome
    unfold fetchCurrentUser at h
    by_cases ht : truthy w.localStorage.accessToken = true
    · cases hapi : api env fuel (getConfig "/auth/me") w with
      | none => simp [ht, hapi] at h
      | some out =>
        obtain ⟨res, w1⟩ := out
        cases res with
        | resolved response =>
          simp only [ht, hapi, Bool.not_true, Bool.false_eq_true, if_false, Option.some.injEq,
            Prod.mk.injEq] at h
          obtain ⟨h1, h2⟩ := h
          subst h2
          exact ⟨response, rfl, by rw [← h1]⟩
        | rejected err =>
          simp only [ht, hapi, Bool.not_true, Bool.false_eq_true, if_false, Option.some.injEq,
            Prod.mk.injEq] at h
          exfalso
          apply hsome
          rw [← h.2]
          rfl
    · simp only [ht, Bool.not_eq_true, Bool.not_false, if_true, Option.some.injEq,
        Prod.mk.injEq] at h
      exfalso
      apply hne
      rw [← h.2]
  · intro s' w' h
    unfold logout at h
    cases hapi : api env fuel (postConfig "/auth/logout" "") w with
    | none => simp [hapi] at h
    | some out =>
      obtain ⟨res, w1⟩ := out
      cases res <;>
      · simp only [hapi, Option.some.injEq, Prod.mk.injEq] at h
        rw [← h.1, ← h.2]
        exact ⟨rfl, rfl⟩
  · intro currentPassword newPassword result s' w' h
    unfold changePassword at h
    cases hapi : api env fuel
        (postConfig "/auth/change-password" (jsonObject
          [("current_password", currentPassword), ("new_password", newPassword)])) w with
    | none => simp [hapi] at h
    | some out =>
      obtain ⟨res, w1⟩ := out
      cases res <;>
      · simp only [hapi, Option.some.injEq, Prod.mk.injEq] at h
        exact h.2.1.symm

/-- A login on an empty browser, a session start with an expired token, a logout while
offline and a password change with an expired token. -/
theorem C20_session_operations_derive_user_witness :
    (login envLogin 1 "ayla@example.com" "secret" anonymousSession anonymousWorld =
        some ({ success := true, error := none },
          { user := some sampleUser, loading := false, error := none }, loggedInWorld) ∧
      ∃ response w1,
        api envLogin 1 (postConfig "/auth/login" sampleLoginBody) anonymousWorld =
          some (.resolved response, w1) ∧
        loggedInWorld.localStorage.accessToken = some (jsString response.data.access_token) ∧
        some sampleUser = response.data.user) ∧
    (fetchCurrentUser envExpired 2 initialAuthState sampleWorld =
        some ({ user := none, loading := false, error := none }, restartedWorld) ∧
      restartedWorld.localStorage.accessToken ≠ sampleWorld.localStorage.accessToken ∧
      restartedWorld.localStorage.accessToken ≠ none ∧
      ∃ response,
        api envExpired 2 (getConfig "/auth/me") sampleWorld =
          some (.resolved response, restartedWorld) ∧
        none = response.data.user) ∧
    (logout envOffline 2 sampleSession sampleWorld =
        some (anonymousSession, clearTokens (sampleWorld.emit (.dispatched
          (requestInterceptor sampleWorld.localStorage (postConfig "/auth/logout" ""))))) ∧
      (clearTokens (sampleWorld.emit (.dispatched (requestInterceptor sampleWorld.localStorage
          (postConfig "/auth/logout" ""))))).localStorage.accessToken = none ∧
      anonymousSession.user = none) ∧
    ((changePassword envExpired 2 "old-pw" "new-pw" sampleSession sampleWorld).map
        (fun out => out.2.1) = some sampleSession ∧
      sampleSession = sampleSession) :=
  ⟨⟨by decide,
      (C20_session_operations_derive_user envLogin 1 anonymousSession anonymousWorld).1
        "ayla@example.com" "secret" { success := true, error := none }
        { user := some sampleUser, loading := false, error := none } loggedInWorld
        (by decide) rfl⟩,
    ⟨by decide, by decide, by decide,
      (C20_session_operations_derive_user envExpired 2 initialAuthState sampleWorld).2.1
        { user := none, loading := false, error := none } restartedWorld
        (by decide) (by decide) (by decide)⟩,
    ⟨by decide,
      (C20_session_operations_derive_user envOffline 2 sampleSession sampleWorld).2.2.1
        anonymousSession _ (by decide)⟩,
    ⟨by decide,
      (C20_session_operations_derive_user envExpired 2 sampleSession sampleWorld).2.2.2
        "old-pw" "new-pw" { success := true, error := none } sampleSession
        ((changePassword envExpired 2 "old-pw" "new-pw" sampleSession sampleWorld).get
          (by decide)).2.2
        (by decide)⟩⟩

/-! ## Irrecoverable failures and the order of the retry -/

/-- C21, as stated, fails: after a session start that ends authenticated, a password change
whose request is answered 401 while the refresh call fails leaves the session
authenticated (the user in memory is the one from before) with neither token stored and
the location set to `/login`: a state that is neither authenticated with an access token
stored nor anonymous. -/
theorem C21_counterexample :
    (fetchCurrentUser envSessionExpires 2 initialAuthState sampleWorld).map (fun out => out.1) =
      some sampleSession ∧
    ((fetchCurrentUser envSessionExpires 2 initialAuthState sampleWorld).bind fun out =>
      (changePassword envSessionExpires 2 "old-pw" "new-pw" out.1 out.2).map fun next =>
        (isAuthenticated next.2.1, next.2.2.localStorage.accessToken,
          next.2.2.localStorage.refreshToken, next.2.2.href,
          refreshCalls next.2.2.log)) =
      some (true, none, none, "/login", [refreshConfig envSessionExpires "r1"]) := by
  decide

/-- C21, amended: an irrecoverable authorization failure clears the credentials and sends
the browser to `/login`. When the refresh call fails both tokens are removed; when no
refresh token is available the access token is removed and still no refresh token is
available. The user of the session is reset when the failing request is the identity
check of the session start: whenever that check rejects, the session ends anonymous with
neither token stored. An operation that sets no user hands the session back as it was.
When the session start completes, it is not loading, and if it is authenticated an
access token is stored. -/
theorem C21_irrecoverable_failure (env : Env) (fuel : Nat) (s : AuthState) (w : World) :
    (∀ retry error r refreshError,
      error.response.map (·.status) = some 401 → error.config._retry = false →
      w.localStorage.refreshToken = some r → r ≠ "" →
      settle (refreshConfig env r) (env.refreshBackend w.log (refreshConfig env r)) =
        .error refreshError →
      ∃ w', responseErrorHandler env retry error w = some (.rejected refreshError, w') ∧
        w'.localStorage.accessToken = none ∧ w'.localStorage.refreshToken = none ∧
        w'.href = "/login") ∧
    (∀ retry error,
      error.response.map (·.status) = some 401 → error.config._retry = false →
      truthy w.localStorage.refreshToken = false →
      ∃ w', responseErrorHandler env retry error w =
          some (.rejected { error with config := error.config.markRetried }, w') ∧
        w'.localStorage.accessToken = none ∧ truthy w'.localStorage.refreshToken = false ∧
        w'.href = "/login") ∧
    (∀ err w1,
      truthy w.localStorage.accessToken = true →
      api env (fuel + 2) (getConfig "/auth/me") w = some (.rejected err, w1) →
      ∃ s' w', fetchCurrentUser env (fuel + 2) s w = some (s', w') ∧
        isAuthenticated s' = false ∧
        w'.localStorage.accessToken = none ∧ w'.localStorage.refreshToken = none) ∧
    (∀ currentPassword newPassword result s' w',
      changePassword env (fuel + 2) currentPassword newPassword s w = some (result, s', w') →
      s' = s) ∧
    (∃ s' w', fetchCurrentUser env (fuel + 2) initialAuthState w = some (s', w') ∧
      s'.loading = false ∧
      (isAuthenticated s' = true → w'.localStorage.accessToken ≠ none)) := by
  refine ⟨?_, ?_, ?_, ?_, ?_⟩
  · intro retry error r refreshError h401 hfresh hr hr0 hfail
    rw [responseErrorHandler_refresh_failed env retry error w r refreshError h401 hfresh hr hr0
      hfail]
    exact ⟨_, rfl, rfl, rfl, rfl⟩
  · intro retry error h401 hfresh hr
    rw [responseErrorHandler_no_refresh_token env retry error w h401 hfresh hr]
    exact ⟨_, rfl, rfl, hr, rfl⟩
  · intro err w1 ht hfail
    unfold fetchCurrentUser
    simp only [ht, hfail]
    exact ⟨_, _, rfl, rfl, rfl, rfl⟩
  · intro currentPassword newPassword result s' w' h
    unfold changePassword at h
    cases hapi : api env (fuel + 2)
        (postConfig "/auth/change-password" (jsonObject
          [("current_password", currentPassword), ("new_password", newPassword)])) w with
    | none => simp [hapi] at h
    | some out =>
      obtain ⟨res, w1⟩ := out
      cases res <;>
      · simp only [hapi, Option.some.injEq, Prod.mk.injEq] at h
        exact h.2.1.symm
  · unfold fetchCurrentUser
    by_cases ht : truthy w.localStorage.accessToken = true
    · obtain ⟨res, w1, rest, hapi, _⟩ := api_returns env fuel (getConfig "/auth/me") w
      simp only [ht, hapi]
      cases res with
      | resolved response =>
        refine ⟨_, _, rfl, rfl, ?_⟩
        intro _
        obtain ⟨_, _, _, h4⟩ := api_resolved_storage env fuel _ w response w1 hapi
        rcases h4 with ⟨hls, _⟩ | ⟨r, status, refreshed, retried, _, _, _, hnew, _⟩
        · show w1.localStorage.accessToken ≠ none
          rw [hls]
          intro hnone
          rw [hnone] at ht
          simp [truthy] at ht
        · show w1.localStorage.accessToken ≠ none
          rw [hnew]
          simp
      | rejected err =>
        refine ⟨_, _, rfl, rfl, ?_⟩
        intro h
        simp [isAuthenticated] at h
    · simp only [ht]
      refine ⟨_, _, rfl, rfl, ?_⟩
      intro h
      simp [isAuthenticated, initialAuthState] at h

/-- A failed refresh and a missing refresh token in the error handler, a session start and
a password change against a backend that answers 401 to everything. -/
theorem C21_irrecoverable_failure_witness :
    (∃ w', responseErrorHandler envRefreshFails (api envRefreshFails 1) sampleError sampleWorld
        = some (.rejected
            ⟨"Request failed", refreshConfig envRefreshFails "r1", some ⟨401, noData⟩⟩, w') ∧
      w'.localStorage.accessToken = none ∧ w'.localStorage.refreshToken = none ∧
      w'.href = "/login") ∧
    (∃ s' w', fetchCurrentUser envRefreshFails 2 sampleSession sampleWorld = some (s', w') ∧
      isAuthenticated s' = false ∧
      w'.localStorage.accessToken = none ∧ w'.localStorage.refreshToken = none) ∧
    ((changePassword envRefreshFails 2 "old-pw" "new-pw" sampleSession sampleWorld).map
        (fun out => out.2.1) = some sampleSession ∧
      sampleSession = sampleSession) :=
  ⟨(C21_irrecoverable_failure envRefreshFails 0 sampleSession sampleWorld).1
      (api envRefreshFails 1) sampleError "r1"
      ⟨"Request failed", refreshConfig envRefreshFails "r1", some ⟨401, noData⟩⟩
      (by decide) (by decide) rfl (by decide) rfl,
    (C21_irrecoverable_failure envRefreshFails 0 sampleSession sampleWorld).2.2.1
      ⟨"Request failed", refreshConfig envRefreshFails "r1", some ⟨401, noData⟩⟩
      { localStorage := { accessToken := none, refreshToken := none, theme := none }
        href := "/login"
        log := [.dispatched (requestInterceptor sampleWorld.localStorage (getConfig "/auth/me")),
          .refreshCall (refreshConfig envRefreshFails "r1"), .redirect "/login"] }
      (by decide) (by decide),
    ⟨by decide,
      (C21_irrecoverable_failure envRefreshFails 0 sampleSession sampleWorld).2.2.2.1
        "old-pw" "new-pw"
        { success := false, error := some "Şifre değiştirilemedi" } sampleSession
        ((changePassword envRefreshFails 2 "old-pw" "new-pw" sampleSession sampleWorld).get
          (by decide)).2.2
        (by decide)⟩⟩

/-- C22: the order of the retry. For every error, every world and every positive bound the
error handler of `api` returns, and its effects extend the log. If a request is
dispatched among them, then the error was a 401 response, a refresh token was stored, the
refresh call was answered with a valid status, the effects are exactly the refresh call
followed by that one request, the request carries the mark and `Bearer ` with the token
the refresh call issued, and that token is the stored access token. So no request is sent
again before, or without, a refresh call that succeeded. -/
theorem C22_retry_only_after_refresh (env : Env) (fuel : Nat) (error : AxiosError)
    (w : World) :
    ∃ res w' rest,
      responseErrorHandler env (api env (fuel + 1)) error w = some (res, w') ∧
      w'.log = w.log ++ rest ∧
      (∀ config, Event.dispatched config ∈ rest →
        ∃ r status refreshed,
          error.response.map (·.status) = some 401 ∧
          w.localStorage.refreshToken = some r ∧
          env.refreshBackend w.log (refreshConfig env r) = .response status refreshed ∧
          validateStatus status = true ∧
          rest = [.refreshCall (refreshConfig env r), .dispatched config] ∧
          config = error.config.markRetried.setAuthorization
            ("Bearer " ++ jsString refreshed.access_token) ∧
          w'.localStorage.accessToken = some (jsString refreshed.access_token)) := by
  by_cases hc : (decide (error.response.map (·.status) = some 401) &&
      !error.config._retry) = true
  · simp only [Bool.and_eq_true, decide_eq_true_eq, Bool.not_eq_true'] at hc
    obtain ⟨h401, hfresh⟩ := hc
    by_cases ht : truthy w.localStorage.refreshToken = true
    · cases hrt : w.localStorage.refreshToken with
      | none => rw [hrt] at ht; simp [truthy] at ht
      | some r =>
        have hr0 : r ≠ "" := by rw [hrt] at ht; simpa [truthy] using ht
        cases hset : settle (refreshConfig env r)
            (env.refreshBackend w.log (refreshConfig env r)) with
        | error refreshError =>
          rw [responseErrorHandler_refresh_failed env _ error w r refreshError h401 hfresh hrt
            hr0 hset]
          refine ⟨_, _, [.refreshCall (refreshConfig env r), .redirect "/login"], rfl, rfl, ?_⟩
          intro config hmem
          simp at hmem
        | ok response =>
          obtain ⟨status, refreshed, hrep, hok⟩ := settle_ok hset
          rw [responseErrorHandler_refreshed env fuel error w r status refreshed h401 hfresh hrt
            hr0 hrep hok]
          refine ⟨_, _, [.refreshCall (refreshConfig env r),
            .dispatched (error.config.markRetried.setAuthorization
              ("Bearer " ++ jsString refreshed.access_token))], rfl, rfl, ?_⟩
          intro config hmem
          simp only [List.mem_cons, List.mem_singleton, Event.dispatched.injEq,
            List.not_mem_nil, or_false, false_or, reduceCtorEq] at hmem
          subst hmem
          exact ⟨r, status, refreshed, h401, rfl, hrep, hok, rfl, rfl, rfl⟩
    · rw [responseErrorHandler_no_refresh_token env _ error w h401 hfresh (by simpa using ht)]
      refine ⟨_, _, [.redirect "/login"], rfl, rfl, ?_⟩
      intro config hmem
      simp at hmem
  · rw [responseErrorHandler_passthrough env _ error w (by simpa using hc)]
    refine ⟨_, _, [], rfl, by simp, ?_⟩
    intro config hmem
    simp at hmem

/-! ## Route guards and the menu -/

/-- C23: `ProtectedRoute`. For every auth state the children are rendered exactly when
`loading` is false and the session is authenticated, that is, a user is present. While
loading, the placeholder is rendered (no `Navigate`); when not loading and not
authenticated, the result is a `Navigate` to `/login`. -/
theorem C23_ProtectedRoute {α : Type} (s : AuthState) (children : α) :
    (ProtectedRoute s children = .children children ↔
      s.loading = false ∧ isAuthenticated s = true) ∧
    (isAuthenticated s = true ↔ ∃ user, s.user = some user) ∧
    (s.loading = true → ProtectedRoute s children = .placeholder) ∧
    (s.loading = false → isAuthenticated s = false →
      ProtectedRoute s children = .navigate "/login") := by
  refine ⟨?_, ?_, ?_, ?_⟩
  · unfold ProtectedRoute
    cases hl : s.loading <;> cases ha : isAuthenticated s <;> simp
  · unfold isAuthenticated
    cases s.user <;> simp
  · intro hl
    simp [ProtectedRoute, hl]
  · intro hl ha
    simp [ProtectedRoute, hl, ha]

/-- The guard while loading, for nobody, and for a user. -/
theorem C23_ProtectedRoute_witness :
    ProtectedRoute initialAuthState Page.Dashboard = .placeholder ∧
    ProtectedRoute anonymousSession Page.Dashboard = .navigate "/login" ∧
    ProtectedRoute sampleSession Page.Dashboard = .children Page.Dashboard :=
  ⟨(C23_ProtectedRoute initialAuthState Page.Dashboard).2.2.1 rfl,
    (C23_ProtectedRoute anonymousSession Page.Dashboard).2.2.2 rfl rfl,
    (C23_ProtectedRoute sampleSession Page.Dashboard).1.2 ⟨rfl, rfl⟩⟩

/-- C24: `AdminRoute`. For every auth state the children are rendered exactly when a user
is present whose role is `admin`; for any other role, and for no user, the result is a
`Navigate` to `/`. Two states whose users have the same role (or are both absent) get the
same result: nothing but the role is consulted. In `App` the page `Users` is shown at
`/users` exactly when moreover `loading` is false. -/
theorem C24_AdminRoute {α : Type} (s : AuthState) (children : α) :
    (AdminRoute s children = .children children ↔ ∃ user, s.user = some user ∧
      user.role = "admin") ∧
    ((¬ ∃ user, s.user = some user ∧ user.role = "admin") →
      AdminRoute s children = .navigate "/") ∧
    (s.user = none → AdminRoute s children = .navigate "/") ∧
    (∀ s2 : AuthState, s2.user.map (·.role) = s.user.map (·.role) →
      AdminRoute s2 children = AdminRoute s children) ∧
    (App s "/users" = .children .Users ↔
      s.loading = false ∧ ∃ user, s.user = some user ∧ user.role = "admin") := by
  have key : ∀ (β : Type) (c : β), (AdminRoute s c = .children c ↔
      ∃ user, s.user = some user ∧ user.role = "admin") := by
    intro β c
    unfold AdminRoute
    cases hu : s.user with
    | none => simp
    | some user =>
      by_cases hr : user.role = "admin" <;> simp [hr]
  refine ⟨key α children, ?_, ?_, ?_, ?_⟩
  · intro h
    unfold AdminRoute
    cases hu : s.user with
    | none => simp
    | some user =>
      have : user.role ≠ "admin" := fun hr => h ⟨user, hu, hr⟩
      simp [this]
  · intro h
    simp [AdminRoute, h]
  · intro s2 h
    unfold AdminRoute
    rw [h]
  · have happ : App s "/users" = (ProtectedRoute s (AdminRoute s Page.Users)).join := by
      unfold App childRoute
      simp
    rw [happ]
    unfold ProtectedRoute
    cases hl : s.loading
    · cases hu : s.user with
      | none => simp [isAuthenticated, hu, RouteResult.join]
      | some user =>
        have hk := key Page Page.Users
        simp only [isAuthenticated, hu, Option.isSome_some, Bool.not_true, Bool.false_eq_true,
          if_false, RouteResult.join]
        rw [hk]
        simp [hu]
    · simp [RouteResult.join]

/-- The guard for an administrator, an intern and nobody. -/
theorem C24_AdminRoute_witness :
    AdminRoute adminSession Page.Users = .children Page.Users ∧
    AdminRoute internSession Page.Users = .navigate "/" ∧
    AdminRoute anonymousSession Page.Users = .navigate "/" ∧
    App adminSession "/users" = .children .Users :=
  ⟨(C24_AdminRoute adminSession Page.Users).1.2 ⟨_, rfl, rfl⟩,
    (C24_AdminRoute internSession Page.Users).2.1 (by decide),
    (C24_AdminRoute anonymousSession Page.Users).2.2.1 rfl,
    (C24_AdminRoute adminSession Page.Users).2.2.2.2.2 ⟨rfl, _, rfl, rfl⟩⟩

/-- C25: `filterByRole`. For every list of items and every user the result is a sub-list of
the items (so the order is kept) that holds exactly the items whose `roles` contain the
role of the user. For an absent user it is empty, and so it is for a role outside the
four role names when the items name only those, as the three menu tables do. For the
role `admin` every item of the three tables is kept; for the role `intern` exactly the
items `/finance`, `/leads`, `/templates` and `/users` are removed. -/
theorem C25_filterByRole (user : Option User) (items : List MenuItem) :
    (filterByRole user items).Sublist items ∧
    (∀ item, item ∈ filterByRole user items ↔
      item ∈ items ∧ ∃ u, user = some u ∧ u.role ∈ item.roles) ∧
    (user = none → filterByRole user items = []) ∧
    (∀ u, user = some u → u.role ∉ roleNames →
      (∀ item ∈ items, ∀ role ∈ item.roles, role ∈ roleNames) →
      filterByRole user items = []) ∧
    (∀ item ∈ menuItems ++ adminItems ++ settingsItems, ∀ role ∈ item.roles,
      role ∈ roleNames) ∧
    (∀ u, user = some u → u.role = "admin" →
      filterByRole user (menuItems ++ adminItems ++ settingsItems) =
        menuItems ++ adminItems ++ settingsItems) ∧
    (∀ u, user = some u → u.role = "intern" →
      filterByRole user (menuItems ++ adminItems ++ settingsItems) =
        (menuItems ++ adminItems ++ settingsItems).filter fun item =>
          not (["/finance", "/leads", "/templates", "/users"].contains item.path)) := by
  refine ⟨List.filter_sublist _, ?_, ?_, ?_, by decide, ?_, ?_⟩
  · intro item
    unfold filterByRole
    cases user with
    | none => simp [includes]
    | some u => simp [includes]
  · intro h
    subst h
    unfold filterByRole
    simp [includes]
  · intro u hu hrole hitems
    subst hu
    unfold filterByRole
    rw [List.filter_eq_nil_iff]
    intro item hmem
    have hnot : u.role ∉ item.roles := fun hin => hrole (hitems item hmem _ hin)
    simpa [includes] using hnot
  · intro u hu hrole
    subst hu
    unfold filterByRole
    simp only [Option.map_some', hrole]
    decide
  · intro u hu hrole
    subst hu
    unfold filterByRole
    simp only [Option.map_some', hrole]
    decide

/-- The menu of an administrator, of an intern, of nobody and of an unknown role. -/
theorem C25_filterByRole_witness :
    filterByRole none menuItems = [] ∧
    filterByRole (some { sampleUser with role := "guest" }) menuItems = [] ∧
    filterByRole adminSession.user (menuItems ++ adminItems ++ settingsItems) =
      menuItems ++ adminItems ++ settingsItems ∧
    (filterByRole internSession.user (menuItems ++ adminItems ++ settingsItems)).map (·.path) =
      ["/", "/clients", "/cases", "/documents", "/calendar", "/settings"] :=
  ⟨(C25_filterByRole none menuItems).2.2.1 rfl,
    (C25_filterByRole (some { sampleUser with role := "guest" }) menuItems).2.2.2.1 _ rfl
      (by decide) (by decide),
    (C25_filterByRole adminSession.user menuItems).2.2.2.2.2.1 _ rfl rfl,
    (congrArg (List.map (·.path))
      ((C25_filterByRole internSession.user menuItems).2.2.2.2.2.2 _ rfl rfl)).trans
      (by decide)⟩

/-- C26 fails on the code: the menu hides `/finance`, `/leads` and `/templates` from an
intern, and `App` shows those pages to an authenticated intern all the same; only
`/users`, which the menu hides as well, is guarded by role. -/
theorem C26_hidden_pages_are_shown :
    isAuthenticated internSession = true ∧
    (∀ path ∈ ["/finance", "/leads", "/templates", "/users"],
      path ∈ (menuItems ++ adminItems ++ settingsItems).map (·.path) ∧
      path ∉ (filterByRole internSession.user
        (menuItems ++ adminItems ++ settingsItems)).map (·.path)) ∧
    App internSession "/finance" = .children .Finance ∧
    App internSession "/leads" = .children .Leads ∧
    App internSession "/templates" = .children .Templates ∧
    App internSession "/users" = .navigate "/" := by
  decide

theorem JsObject.get_omit_self (o : JsObject) (key : String) : (o.omit key).get key = none := by
  unfold JsObject.get JsObject.omit
  rw [Option.map_eq_none', List.find?_eq_none]
  intro entry hmem
  simp only [List.mem_filter, decide_eq_true_eq] at hmem
  simpa using hmem.2

theorem JsObject.get_omit_ne (o : JsObject) {key other : String} (h : other ≠ key) :
    (o.omit key).get other = o.get other := by
  unfold JsObject.get JsObject.omit
  induction o with
  | nil => rfl
  | cons entry rest ih =>
    obtain ⟨k, v⟩ := entry
    by_cases hk : k = key
    · subst hk
      have hne : ¬ k = other := fun e => h e.symm
      simp only [List.filter_cons, List.find?_cons, ne_eq, not_true_eq_false, decide_False,
        Bool.false_eq_true, if_false, hne]
      exact ih
    · by_cases ho : k = other
      · subst ho
        simp only [List.filter_cons, List.find?_cons, ne_eq, hk, not_false_eq_true,
          decide_True, if_true]
      · simp only [List.filter_cons, List.find?_cons, ne_eq, hk, not_false_eq_true,
          decide_True, if_true, ho, decide_False]
        exact ih

theorem JsObject.key_ne_of_mem_omit (o : JsObject) (key : String) :
    ∀ entry ∈ o.omit key, entry.1 ≠ key := by
  intro entry hmem
  unfold JsObject.omit at hmem
  simp only [List.mem_filter, decide_eq_true_eq] at hmem
  exact hmem.2

/-- C27: the payload of the user form. For every set of form values and every user being
edited (or none), the submit handler makes one call with a payload that has no
`isEditing` property, has a `password` property exactly when the password of the form is
truthy (for a text: non-empty), and reads like the form values at every other key. The
call is `updateUser` with the id of the user being edited when there is one, and
`createUser` otherwise. -/
theorem C27_user_form_payload (editingUser : Option User) (values : JsObject) :
    ∃ payload : JsObject,
      (∀ user, editingUser = some user →
        usersOnSubmit editingUser values = .updateUser user.id payload) ∧
      (editingUser = none → usersOnSubmit editingUser values = .createUser payload) ∧
      payload.get "isEditing" = none ∧
      (∀ entry ∈ payload, entry.1 ≠ "isEditing") ∧
      (payload.get "password" ≠ none ↔ JsValue.truthy (values.get "password") = true) ∧
      (∀ text, values.get "password" = some (.str text) →
        (payload.get "password" ≠ none ↔ text ≠ "")) ∧
      (JsValue.truthy (values.get "password") = true →
        payload.get "password" = values.get "password") ∧
      (∀ key, key ≠ "isEditing" → key ≠ "password" → payload.get key = values.get key) := by
  have hpw : (values.omit "isEditing").get "password" = values.get "password" :=
    JsObject.get_omit_ne values (by decide)
  by_cases ht : JsValue.truthy (values.get "password") = true
  · refine ⟨values.omit "isEditing", ?_, ?_, JsObject.get_omit_self _ _,
      JsObject.key_ne_of_mem_omit _ _, ?_, ?_, ?_, ?_⟩
    · intro user hu
      subst hu
      simp [usersOnSubmit, hpw, ht]
    · intro hu
      subst hu
      simp [usersOnSubmit, hpw, ht]
    · rw [hpw]
      constructor
      · intro _; exact ht
      · intro _ hnone
        rw [hnone] at ht
        simp [JsValue.truthy] at ht
    · intro text htext
      rw [hpw, htext]
      rw [htext] at ht
      simpa [JsValue.truthy] using ht
    · intro _; exact hpw
    · intro key h1 _
      exact JsObject.get_omit_ne values h1
  · have hf : JsValue.truthy (values.get "password") = false := by simpa using ht
    refine ⟨(values.omit "isEditing").omit "password", ?_, ?_, ?_, ?_, ?_, ?_, ?_, ?_⟩
    · intro user hu
      subst hu
      simp [usersOnSubmit, hpw, hf]
    · intro hu
      subst hu
      simp [usersOnSubmit, hpw, hf]
    · rw [JsObject.get_omit_ne _ (by decide)]
      exact JsObject.get_omit_self _ _
    · intro entry hmem
      unfold JsObject.omit at hmem
      simp only [List.mem_filter, decide_eq_true_eq] at hmem
      exact hmem.1.2
    · rw [JsObject.get_omit_self, hf]
      simp
    · intro text htext
      rw [JsObject.get_omit_self]
      rw [htext] at hf
      simpa [JsValue.truthy] using hf
    · intro h
      rw [h] at hf
      simp at hf
    · intro key h1 h2
      rw [JsObject.get_omit_ne _ h2]
      exact JsObject.get_omit_ne values h1

/-- The form of a new user with a password, and the form of `sampleUser` with none. -/
theorem C27_user_form_payload_witness :
    usersOnSubmit none sampleFormValues =
      .createUser [("email", .str "efe@example.com"), ("name", .str "Efe"),
        ("surname", .str "Demir"), ("phone", .str ""), ("role", .str "lawyer"),
        ("password", .str "secret"), ("is_active", .bool true)] ∧
    usersOnSubmit (some sampleUser)
        [("email", .str "ayla@example.com"), ("password", .str ""), ("isEditing", .bool true)] =
      .updateUser 7 [("email", .str "ayla@example.com")] ∧
    (∃ payload : JsObject,
      (∀ user, some sampleUser = some user →
        usersOnSubmit (some sampleUser) sampleFormValues = .updateUser user.id payload) ∧
      ((some sampleUser : Option User) = none →
        usersOnSubmit (some sampleUser) sampleFormValues = .createUser payload) ∧
      payload.get "isEditing" = none ∧
      (∀ entry ∈ payload, entry.1 ≠ "isEditing") ∧
      (payload.get "password" ≠ none ↔
        JsValue.truthy (sampleFormValues.get "password") = true) ∧
      (∀ text, sampleFormValues.get "password" = some (.str text) →
        (payload.get "password" ≠ none ↔ text ≠ "")) ∧
      (JsValue.truthy (sampleFormValues.get "password") = true →
        payload.get "password" = sampleFormValues.get "password") ∧
      (∀ key, key ≠ "isEditing" → key ≠ "password" →
        payload.get key = sampleFormValues.get key)) :=
  ⟨by decide, by decide, C27_user_form_payload (some sampleUser) sampleFormValues⟩

theorem toggleTheme_mem (themeName : String) : toggleTheme themeName ∈ themeKeys := by
  unfold toggleTheme
  by_cases h1 : themeName = "professionalBlue"
  · subst h1; decide
  · by_cases h2 : themeName = "darkMode"
    · subst h2; decide
    · by_cases h3 : themeName = "elegantPurple"
      · subst h3; decide
      · have h1' : ¬ "professionalBlue" = themeName := fun h => h1 h.symm
        have h2' : ¬ "darkMode" = themeName := fun h => h2 h.symm
        have h3' : ¬ "elegantPurple" = themeName := fun h => h3 h.symm
        simp [themeKeys, indexOf, h1', h2', h3']

/-- C28 fails on the code: a name that every object inherits passes the test
`themes[name]`. With `constructor` stored under `theme` the initial theme name is
`constructor`, and `changeTheme` with `toString` or `__proto__` makes that the theme name:
none of them is a key of `themes`. Toggling moves through the three keys in a cycle and
brings any name back to a key. -/
theorem C28_inherited_names_pass_the_check :
    initialThemeName ⟨none, none, some "constructor"⟩ = "constructor" ∧
    "constructor" ∉ themeKeys ∧
    changeTheme "darkMode" "toString" = "toString" ∧
    "toString" ∉ themeKeys ∧
    runTheme (initialThemeName ⟨none, none, none⟩) [.toggleTheme, .changeTheme "__proto__"] =
      "__proto__" ∧
    "__proto__" ∉ themeKeys ∧
    initialThemeName ⟨none, none, none⟩ = "professionalBlue" ∧
    initialThemeName ⟨none, none, some "neon"⟩ = "professionalBlue" ∧
    changeTheme "darkMode" "neon" = "darkMode" ∧
    themeKeys.map toggleTheme = ["darkMode", "elegantPurple", "professionalBlue"] ∧
    toggleTheme "constructor" = "professionalBlue" := by
  decide

/-! ## Template variables -/

theorem dropWhile_of_head {α : Type} (p : α → Bool) (l : List α)
    (h : ∀ c, l.head? = some c → p c = false) : l.dropWhile p = l := by
  cases l with
  | nil => rfl
  | cons c rest =>
    have hc : p c = false := h c rfl
    simp [List.dropWhile_cons, hc]

theorem trimChars_of_trimmed (cs : List Char)
    (hhead : ∀ c, cs.head? = some c → isJsWhitespace c = false)
    (hlast : ∀ c, cs.getLast? = some c → isJsWhitespace c = false) : trimChars cs = cs := by
  unfold trimChars
  rw [dropWhile_of_head _ cs hhead, dropWhile_of_head _ cs.reverse, List.reverse_reverse]
  intro c hc
  rw [List.head?_reverse] at hc
  exact hlast c hc

theorem trimChars_cons_space (cs : List Char) : trimChars (' ' :: cs) = trimChars cs := by
  unfold trimChars
  rw [List.dropWhile_cons_of_pos (by decide)]

theorem trimChars_nil : trimChars [] = [] := rfl

theorem head_trimChars (cs : List Char) :
    ∀ c, (trimChars cs).head? = some c → isJsWhitespace c = false := by
  intro c hc
  unfold trimChars at hc
  rw [List.head?_reverse] at hc
  obtain ⟨pre, hpre⟩ := List.dropWhile_suffix (l := (cs.dropWhile isJsWhitespace).reverse)
    isJsWhitespace
  have hne : ((cs.dropWhile isJsWhitespace).reverse.dropWhile isJsWhitespace) ≠ [] := by
    intro h
    rw [h] at hc
    simp at hc
  have hlast : ((cs.dropWhile isJsWhitespace).reverse).getLast? = some c := by
    rw [← hpre, List.getLast?_append_of_ne_nil _ hne]
    exact hc
  rw [List.getLast?_reverse] at hlast
  have := List.head?_dropWhile_not isJsWhitespace cs
  rw [hlast] at this
  simpa using this

theorem getLast_trimChars (cs : List Char) :
    ∀ c, (trimChars cs).getLast? = some c → isJsWhitespace c = false := by
  intro c hc
  unfold trimChars at hc
  rw [List.getLast?_reverse] at hc
  have := List.head?_dropWhile_not isJsWhitespace (cs.dropWhile isJsWhitespace).reverse
  rw [hc] at this
  simpa using this

theorem splitChars_ne_nil (sep : Char) (cs : List Char) : splitChars sep cs ≠ [] := by
  induction cs with
  | nil => simp [splitChars]
  | cons c rest ih =>
    unfold splitChars
    split
    · simp
    · split <;> simp

theorem splitChars_of_not_mem (sep : Char) (cs : List Char) (h : sep ∉ cs) :
    splitChars sep cs = [cs] := by
  induction cs with
  | nil => rfl
  | cons c rest ih =>
    have hc : c ≠ sep := fun e => h (by simp [e])
    have hrest : sep ∉ rest := fun hm => h (List.mem_cons_of_mem _ hm)
    unfold splitChars
    simp only [hc, if_false, ih hrest]

theorem splitChars_append (sep : Char) (cs rest : List Char) (h : sep ∉ cs) :
    splitChars sep (cs ++ sep :: rest) = cs :: splitChars sep rest := by
  induction cs with
  | nil => simp [splitChars]
  | cons c tail ih =>
    have hc : c ≠ sep := fun e => h (by simp [e])
    have htail : sep ∉ tail := fun hm => h (List.mem_cons_of_mem _ hm)
    rw [List.cons_append, splitChars]
    simp only [hc, if_false, ih htail]

theorem map_trimChars_splitChars_space (cs : List Char) :
    (splitChars ',' (' ' :: cs)).map trimChars = (splitChars ',' cs).map trimChars := by
  have hne := splitChars_ne_nil ',' cs
  unfold splitChars
  simp only [show (' ' : Char) ≠ ',' from by decide, if_false]
  cases hs : splitChars ',' cs with
  | nil => exact absurd hs hne
  | cons piece pieces =>
    simp only [List.map_cons, trimChars_cons_space]
    unfold splitChars at hs
    rw [hs]
    rfl

theorem parse_joinChars (xs : List (List Char))
    (h : ∀ x ∈ xs, x ≠ [] ∧ ',' ∉ x ∧ trimChars x = x) :
    (((splitChars ',' (joinChars [',', ' '] xs)).map trimChars).filter
      fun v => decide (v ≠ [])) = xs := by
  induction xs with
  | nil => rfl
  | cons x rest ih =>
    obtain ⟨hne, hcomma, htrim⟩ := h x (List.mem_cons_self _ _)
    have hrest : ∀ y ∈ rest, y ≠ [] ∧ ',' ∉ y ∧ trimChars y = y :=
      fun y hy => h y (List.mem_cons_of_mem _ hy)
    cases rest with
    | nil =>
      simp only [joinChars]
      rw [splitChars_of_not_mem _ _ hcomma]
      simp [htrim, hne]
    | cons y tail =>
      have ih' := ih hrest
      simp only [joinChars]
      rw [List.append_assoc, List.cons_append, List.singleton_append,
        splitChars_append _ _ _ hcomma, List.map_cons, map_trimChars_splitChars_space, htrim,
        List.filter_cons_of_pos (by simpa using hne), ih']

theorem untrimmed_eq_false_iff (s : String) :
    untrimmed s = false ↔
      (∀ c, s.data.head? = some c → isJsWhitespace c = false) ∧
        (∀ c, s.data.getLast? = some c → isJsWhitespace c = false) := by
  unfold untrimmed
  cases hh : s.data.head? <;> cases hl : s.data.getLast? <;> simp

/-- C29: the variables of a template. For every list of names that are non-empty, neither
start nor end with white space and contain no comma, the text the edit form shows (the
names joined by a comma and a space) is parsed on submit (split at commas, each piece
trimmed, empty pieces dropped) back to the same list. For every text, no entry of the
parsed list is empty and none starts or ends with white space. -/
theorem C29_variables_round_trip (names : List String) (text : String) :
    ((∀ name ∈ names, name ≠ "" ∧ untrimmed name = false ∧ ',' ∉ name.data) →
      variablesList (.text (variablesText (some names))) = names) ∧
    (∀ v ∈ variablesList (.text text), v ≠ "" ∧ untrimmed v = false) := by
  refine ⟨?_, ?_⟩
  · intro h
    have hchars : ∀ x ∈ names.map String.data, x ≠ [] ∧ ',' ∉ x ∧ trimChars x = x := by
      intro x hx
      obtain ⟨name, hname, rfl⟩ := List.mem_map.mp hx
      obtain ⟨h1, h2, h3⟩ := h name hname
      rw [untrimmed_eq_false_iff] at h2
      refine ⟨?_, h3, trimChars_of_trimmed _ h2.1 h2.2⟩
      intro hd
      apply h1
      exact String.ext hd
    show (((splitChars ',' (joinChars [',', ' '] (names.map String.data))).map trimChars).filter
      fun v => decide (v ≠ [])).map String.mk = names
    rw [parse_joinChars _ hchars, List.map_map]
    exact List.map_id'' (fun _ => rfl) names
  · intro v hv
    simp only [variablesList, parseVariables, List.mem_map, List.mem_filter,
      decide_eq_true_eq] at hv
    obtain ⟨cs, ⟨⟨piece, _, hpiece⟩, hne⟩, rfl⟩ := hv
    refine ⟨?_, ?_⟩
    · intro h
      apply hne
      exact congrArg String.data h
    · rw [untrimmed_eq_false_iff]
      subst hpiece
      exact ⟨head_trimChars piece, getLast_trimChars piece⟩

/-- Three names through the edit form and back, and a text typed by hand. -/
theorem C29_variables_round_trip_witness :
    variablesList (.text (variablesText (some ["müvekkil_adı", "tarih", "dava no"]))) =
      ["müvekkil_adı", "tarih", "dava no"] ∧
    (∀ v ∈ variablesList (.text " a, b ,,c  , "), v ≠ "" ∧ untrimmed v = false) ∧
    variablesList (.text " a, b ,,c  , ") = ["a", "b", "c"] :=
  ⟨(C29_variables_round_trip ["müvekkil_adı", "tarih", "dava no"] "").1 (by decide),
    (C29_variables_round_trip [] " a, b ,,c  , ").2, by decide⟩

/-! ## Calendar groups -/

theorem groupEvent_some (formatDate : String → Option String)
    (acc : List (String × List CalendarEvent)) (event : CalendarEvent) (date : String)
    (h : formatDate event.start_datetime = some date) :
    groupEvent formatDate acc event = some (pushEvent acc date event) := by
  simp [groupEvent, h]

theorem groupEvent_none (formatDate : String → Option String)
    (acc : List (String × List CalendarEvent)) (event : CalendarEvent)
    (h : formatDate event.start_datetime = none) :
    groupEvent formatDate acc event = none := by
  simp [groupEvent, h]

theorem groupedEvents_append (formatDate : String → Option String)
    (events : List CalendarEvent) (event : CalendarEvent) :
    groupedEvents formatDate (events ++ [event]) =
      (groupedEvents formatDate events).bind (fun acc => groupEvent formatDate acc event) := by
  simp [groupedEvents, List.foldlM_append]

/-- The reduce throws as soon as one start has no day. -/
theorem foldlM_groupEvent_none (formatDate : String → Option String)
    (events : List CalendarEvent) (acc : List (String × List CalendarEvent))
    (h : ∃ e ∈ events, formatDate e.start_datetime = none) :
    events.foldlM (groupEvent formatDate) acc = none := by
  induction events generalizing acc with
  | nil =>
    obtain ⟨e, he, _⟩ := h
    simp at he
  | cons event rest ih =>
    rw [List.foldlM_cons]
    cases hd : formatDate event.start_datetime with
    | none =>
      rw [groupEvent_none formatDate acc event hd]
      rfl
    | some date =>
      rw [groupEvent_some formatDate acc event date hd]
      obtain ⟨e, he, hnone⟩ := h
      rw [List.mem_cons] at he
      rcases he with he | he
      · subst he
        rw [hd] at hnone
        exact absurd hnone (by simp)
      · exact ih _ ⟨e, he, hnone⟩

theorem keys_pushEvent (acc : List (String × List CalendarEvent)) (date : String)
    (event : CalendarEvent) :
    (pushEvent acc date event).map Prod.fst =
      if date ∈ acc.map Prod.fst then acc.map Prod.fst else acc.map Prod.fst ++ [date] := by
  induction acc with
  | nil => simp [pushEvent]
  | cons group rest ih =>
    obtain ⟨key, dayEvents⟩ := group
    unfold pushEvent
    by_cases hk : key = date
    · subst hk
      simp
    · have hk' : ¬ date = key := fun e => hk e.symm
      simp only [hk, if_false, List.map_cons, ih, List.mem_cons, hk', false_or]
      split <;> simp

theorem mem_pushEvent (acc : List (String × List CalendarEvent))
    (hnodup : (acc.map Prod.fst).Nodup) (date : String) (event : CalendarEvent)
    (group : String × List CalendarEvent) (h : group ∈ pushEvent acc date event) :
    (group.1 ≠ date ∧ group ∈ acc) ∨
      (group.1 = date ∧
        ((∃ before, (date, before) ∈ acc ∧ group.2 = before ++ [event]) ∨
          (date ∉ acc.map Prod.fst ∧ group.2 = [event]))) := by
  induction acc with
  | nil =>
    simp only [pushEvent, List.mem_singleton] at h
    subst h
    exact Or.inr ⟨rfl, Or.inr ⟨by simp, rfl⟩⟩
  | cons first rest ih =>
    obtain ⟨key, dayEvents⟩ := first
    rw [List.map_cons, List.nodup_cons] at hnodup
    obtain ⟨hkey, hrest⟩ := hnodup
    unfold pushEvent at h
    by_cases hk : key = date
    · subst hk
      simp only [if_true, List.mem_cons] at h
      rcases h with h | h
      · subst h
        exact Or.inr ⟨rfl, Or.inl ⟨dayEvents, by simp, rfl⟩⟩
      · refine Or.inl ⟨?_, List.mem_cons_of_mem _ h⟩
        intro e
        apply hkey
        have hm := List.mem_map_of_mem Prod.fst h
        rw [e] at hm
        exact hm
    · simp only [hk, if_false, List.mem_cons] at h
      rcases h with h | h
      · subst h
        exact Or.inl ⟨hk, by simp⟩
      · rcases ih hrest h with ⟨h1, h2⟩ | ⟨h1, h2⟩
        · exact Or.inl ⟨h1, List.mem_cons_of_mem _ h2⟩
        · refine Or.inr ⟨h1, ?_⟩
          rcases h2 with ⟨before, hb, he⟩ | ⟨hn, he⟩
          · exact Or.inl ⟨before, List.mem_cons_of_mem _ hb, he⟩
          · refine Or.inr ⟨?_, he⟩
            simp only [List.map_cons, List.mem_cons, not_or]
            exact ⟨fun e => hk e.symm, hn⟩

/-- What `groupedEvents` builds when every start has a day: the keys are distinct, every
group holds exactly the events of its day in the order of the input and is not empty, and
the day of every event is a key. -/
theorem groupedEvents_spec (formatDate : String → Option String) (events : List CalendarEvent)
    (hparse : ∀ e ∈ events, formatDate e.start_datetime ≠ none) :
    ∃ groups, groupedEvents formatDate events = some groups ∧
      (groups.map Prod.fst).Nodup ∧
      (∀ group ∈ groups,
        group.2 = events.filter (fun e => decide (formatDate e.start_datetime = some group.1)) ∧
          group.2 ≠ []) ∧
      (∀ e ∈ events, ∃ day, formatDate e.start_datetime = some day ∧
        day ∈ groups.map Prod.fst) := by
  induction events using List.reverseRecOn with
  | nil => exact ⟨[], rfl, by simp, by simp, by simp⟩
  | append_singleton events event ih =>
    obtain ⟨groups, hsome, hnodup, hgroups, hkeys⟩ :=
      ih (fun e he => hparse e (List.mem_append_left _ he))
    obtain ⟨date, hdate⟩ := Option.ne_none_iff_exists'.mp (hparse event (by simp))
    have hk := keys_pushEvent groups date event
    refine ⟨pushEvent groups date event, ?_, ?_, ?_, ?_⟩
    · rw [groupedEvents_append, hsome, Option.some_bind]
      exact groupEvent_some formatDate groups event date hdate
    · rw [hk]
      split
      · exact hnodup
      · next hnot =>
        rw [List.nodup_append]
        refine ⟨hnodup, by simp, ?_⟩
        intro a ha hb
        simp only [List.mem_singleton] at hb
        subst hb
        exact hnot ha
    · intro group hmem
      rcases mem_pushEvent _ hnodup _ _ group hmem with ⟨hne, hin⟩ | ⟨heq, hcase⟩
      · obtain ⟨h1, h2⟩ := hgroups group hin
        refine ⟨?_, h2⟩
        rw [List.filter_append, ← h1]
        have : decide (formatDate event.start_datetime = some group.1) = false := by
          rw [hdate]
          simpa using fun e => hne e.symm
        simp [List.filter_cons, this]
      · have hthis : decide (formatDate event.start_datetime = some group.1) = true := by
          rw [hdate, heq]
          simp
        rcases hcase with ⟨before, hb, he⟩ | ⟨hn, he⟩
        · obtain ⟨h1, _⟩ := hgroups _ hb
          have h1' : before = events.filter
              (fun e => decide (formatDate e.start_datetime = some date)) := h1
          refine ⟨?_, by rw [he]; simp⟩
          rw [he, List.filter_append, heq, ← h1']
          rw [heq] at hthis
          simp [List.filter_cons, hthis]
        · refine ⟨?_, by rw [he]; simp⟩
          rw [he, List.filter_append, heq]
          have hnone : events.filter
              (fun e => decide (formatDate e.start_datetime = some date)) = [] := by
            rw [List.filter_eq_nil_iff]
            intro e hmem'
            simp only [decide_eq_true_eq]
            intro e'
            apply hn
            obtain ⟨day, hday, hin⟩ := hkeys e hmem'
            rw [hday, Option.some.injEq] at e'
            rw [← e']
            exact hin
          rw [hnone]
          rw [heq] at hthis
          simp [List.filter_cons, hthis]
    · intro e hmem
      rw [hk]
      rw [List.mem_append, List.mem_singleton] at hmem
      rcases hmem with hmem | hmem
      · obtain ⟨day, hday, hin⟩ := hkeys e hmem
        refine ⟨day, hday, ?_⟩
        split
        · exact hin
        · exact List.mem_append_left _ hin
      · subst hmem
        refine ⟨date, hdate, ?_⟩
        split
        · next hin => exact hin
        · simp

theorem insertGroup_perm (localeCompare : String → String → Int)
    (group : String × List CalendarEvent) (groups : List (String × List CalendarEvent)) :
    (insertGroup localeCompare group groups).Perm (group :: groups) := by
  induction groups with
  | nil => exact List.Perm.refl _
  | cons next rest ih =>
    unfold insertGroup
    split
    · exact List.Perm.refl _
    · exact (List.Perm.cons next ih).trans (List.Perm.swap group next rest)

theorem insertGroup_sorted (localeCompare : String → String → Int)
    (htotal : ∀ a b, localeCompare a b ≤ 0 ∨ localeCompare b a ≤ 0)
    (htrans : ∀ a b c, localeCompare a b ≤ 0 → localeCompare b c ≤ 0 → localeCompare a c ≤ 0)
    (group : String × List CalendarEvent) (groups : List (String × List CalendarEvent))
    (h : groups.Pairwise fun a b => localeCompare a.1 b.1 ≤ 0) :
    (insertGroup localeCompare group groups).Pairwise fun a b => localeCompare a.1 b.1 ≤ 0 := by
  induction groups with
  | nil => simp [insertGroup]
  | cons next rest ih =>
    rw [List.pairwise_cons] at h
    obtain ⟨hnext, hrest⟩ := h
    unfold insertGroup
    split
    · next hle =>
      rw [List.pairwise_cons]
      refine ⟨?_, List.pairwise_cons.mpr ⟨hnext, hrest⟩⟩
      intro x hx
      rw [List.mem_cons] at hx
      rcases hx with hx | hx
      · subst hx; exact hle
      · exact htrans _ _ _ hle (hnext x hx)
    · next hnle =>
      rw [List.pairwise_cons]
      refine ⟨?_, ih hrest⟩
      intro x hx
      have hx' := (insertGroup_perm localeCompare group rest).mem_iff.mp hx
      rw [List.mem_cons] at hx'
      rcases hx' with hx' | hx'
      · subst hx'
        rcases htotal x.1 next.1 with h1 | h1
        · exact absurd h1 hnle
        · exact h1
      · exact hnext x hx'

theorem sortGroups_perm (localeCompare : String → String → Int)
    (groups : List (String × List CalendarEvent)) :
    (sortGroups localeCompare groups).Perm groups := by
  unfold sortGroups
  induction groups with
  | nil => exact List.Perm.refl _
  | cons group rest ih =>
    rw [List.foldr_cons]
    exact (insertGroup_perm _ _ _).trans (List.Perm.cons group ih)

theorem sortGroups_sorted (localeCompare : String → String → Int)
    (htotal : ∀ a b, localeCompare a b ≤ 0 ∨ localeCompare b a ≤ 0)
    (htrans : ∀ a b c, localeCompare a b ≤ 0 → localeCompare b c ≤ 0 → localeCompare a c ≤ 0)
    (groups : List (String × List CalendarEvent)) :
    (sortGroups localeCompare groups).Pairwise fun a b => localeCompare a.1 b.1 ≤ 0 := by
  unfold sortGroups
  induction groups with
  | nil => simp
  | cons group rest ih =>
    rw [List.foldr_cons]
    exact insertGroup_sorted _ htotal htrans _ _ ih

theorem sampleLocaleCompare_le_iff (a b : String) : sampleLocaleCompare a b ≤ 0 ↔ a ≤ b := by
  unfold sampleLocaleCompare
  by_cases h1 : a < b
  · simp [h1, le_of_lt h1]
  · by_cases h2 : a = b
    · simp [h2]
    · simp only [h1, h2, if_false]
      constructor
      · intro h; omega
      · intro h
        exact absurd (lt_of_le_of_ne h h2) h1

/-- C30, as the code has it: an event whose start is the empty text makes
`format(new Date(''), 'yyyy-MM-dd')` throw, so for this list of four events `groupedEvents`
builds no groups and nothing is displayed: no event is in a group, the three events with a
valid start included. -/
theorem C30_counterexample :
    undatedEvent ∈ sampleEventsWithUndated ∧
    sampleFormatDate undatedEvent.start_datetime = none ∧
    groupedEvents sampleFormatDate sampleEventsWithUndated = none ∧
    displayedGroups sampleFormatDate sampleLocaleCompare sampleEventsWithUndated = none ∧
    ¬ ∃ groups, groupedEvents sampleFormatDate sampleEventsWithUndated = some groups ∧
        ∀ e ∈ sampleEventsWithUndated, ∃ group ∈ groups, e ∈ group.2 :=
  ⟨by decide, by decide, by decide, by decide, fun ⟨_, h, _⟩ => by
    have hnone : groupedEvents sampleFormatDate sampleEventsWithUndated = none := by decide
    rw [hnone] at h
    exact absurd h (by simp)⟩

/-- C30, amended: the groups of the calendar for events whose starts are valid dates.
When `format` throws for the start of some event, `groupedEvents` builds no groups and
nothing is displayed. When `formatDate` gives a day for the start of every event of the
list: `groupedEvents` returns groups whose keys are distinct days; the group of a day
holds exactly the events of that day, in the order of the input, and is not empty; every
event is in the group of its day and in no other group, so two events are in one group
exactly when their days are equal. The groups displayed are the same groups, and when
`localeCompare` is a total order of texts they are in strictly ascending order of their
days. -/
theorem C30_calendar_groups (formatDate : String → Option String)
    (localeCompare : String → String → Int) (events : List CalendarEvent)
    (htotal : ∀ a b, localeCompare a b ≤ 0 ∨ localeCompare b a ≤ 0)
    (htrans : ∀ a b c, localeCompare a b ≤ 0 → localeCompare b c ≤ 0 → localeCompare a c ≤ 0)
    (hanti : ∀ a b, localeCompare a b ≤ 0 → localeCompare b a ≤ 0 → a = b) :
    ((∃ e ∈ events, formatDate e.start_datetime = none) →
      groupedEvents formatDate events = none ∧
        displayedGroups formatDate localeCompare events = none) ∧
    ((∀ e ∈ events, formatDate e.start_datetime ≠ none) →
      ∃ groups displayed,
        groupedEvents formatDate events = some groups ∧
        displayedGroups formatDate localeCompare events = some displayed ∧
        (groups.map Prod.fst).Nodup ∧
        (∀ group ∈ groups,
          group.2 =
              events.filter (fun e => decide (formatDate e.start_datetime = some group.1)) ∧
            group.2 ≠ []) ∧
        (∀ e ∈ events, ∃ group ∈ groups,
          formatDate e.start_datetime = some group.1 ∧ e ∈ group.2) ∧
        (∀ e ∈ events, ∀ group ∈ groups,
          e ∈ group.2 → formatDate e.start_datetime = some group.1) ∧
        (∀ e1 ∈ events, ∀ e2 ∈ events,
          ((∃ group ∈ groups, e1 ∈ group.2 ∧ e2 ∈ group.2) ↔
            formatDate e1.start_datetime = formatDate e2.start_datetime)) ∧
        displayed.Perm groups ∧
        displayed.Pairwise
          (fun a b => localeCompare a.1 b.1 ≤ 0 ∧ ¬ localeCompare b.1 a.1 ≤ 0)) := by
  constructor
  · intro hthrows
    have hnone : groupedEvents formatDate events = none :=
      foldlM_groupEvent_none formatDate events [] hthrows
    exact ⟨hnone, by simp [displayedGroups, hnone]⟩
  · intro hparse
    obtain ⟨groups, hsome, hnodup, hgroups, hkeys⟩ := groupedEvents_spec formatDate events hparse
    have hplaced : ∀ e ∈ events, ∃ group ∈ groups,
        formatDate e.start_datetime = some group.1 ∧ e ∈ group.2 := by
      intro e he
      obtain ⟨day, hday, hin⟩ := hkeys e he
      obtain ⟨group, hg, hkey⟩ := List.mem_map.mp hin
      have hday' : formatDate e.start_datetime = some group.1 := by rw [hday, hkey]
      refine ⟨group, hg, hday', ?_⟩
      rw [(hgroups group hg).1, List.mem_filter]
      exact ⟨he, by simpa using hday'⟩
    have honly : ∀ e ∈ events, ∀ group ∈ groups,
        e ∈ group.2 → formatDate e.start_datetime = some group.1 := by
      intro e _ group hg hmem
      rw [(hgroups group hg).1, List.mem_filter] at hmem
      simpa using hmem.2
    refine ⟨groups, sortGroups localeCompare groups, hsome, by simp [displayedGroups, hsome],
      hnodup, hgroups, hplaced, honly, ?_, sortGroups_perm _ _, ?_⟩
    · intro e1 h1 e2 h2
      constructor
      · rintro ⟨group, hg, hm1, hm2⟩
        rw [honly e1 h1 group hg hm1, honly e2 h2 group hg hm2]
      · intro heq
        obtain ⟨group, hg, hkey, hm1⟩ := hplaced e1 h1
        refine ⟨group, hg, hm1, ?_⟩
        rw [(hgroups group hg).1, List.mem_filter]
        exact ⟨h2, by simpa using heq.symm.trans hkey⟩
    · have hsorted := sortGroups_sorted localeCompare htotal htrans groups
      have hdistinct : (sortGroups localeCompare groups).Pairwise (fun a b => a.1 ≠ b.1) := by
        have hn : ((sortGroups localeCompare groups).map Prod.fst).Nodup :=
          ((sortGroups_perm localeCompare groups).map Prod.fst).nodup_iff.mpr hnodup
        exact List.pairwise_map.mp hn
      refine (hsorted.and hdistinct).imp ?_
      intro a b hab
      exact ⟨hab.1, fun hba => hab.2 (hanti _ _ hab.1 hba)⟩

/-- Three events on two days, grouped and displayed with the order of texts by their
characters: every start has a day, the groups are those of the two days in the order the
days first occur, and the groups displayed are the same groups in strictly ascending order
of their days. -/
theorem C30_calendar_groups_witness :
    (∀ e ∈ sampleEvents, sampleFormatDate e.start_datetime ≠ none) ∧
    (groupedEvents sampleFormatDate sampleEvents).map
        (fun groups => groups.map (fun g => (g.1, g.2.map (·.id)))) =
      some [("2024-03-12", [1, 3]), ("2024-03-05", [2])] ∧
    ∃ groups displayed,
      groupedEvents sampleFormatDate sampleEvents = some groups ∧
      displayedGroups sampleFormatDate sampleLocaleCompare sampleEvents = some displayed ∧
      displayed.Perm groups ∧
      displayed.Pairwise
        (fun a b => sampleLocaleCompare a.1 b.1 ≤ 0 ∧ ¬ sampleLocaleCompare b.1 a.1 ≤ 0) := by
  refine ⟨by decide, by decide, ?_⟩
  obtain ⟨groups, displayed, h1, h2, _, _, _, _, _, h3, h4⟩ :=
    (C30_calendar_groups sampleFormatDate sampleLocaleCompare sampleEvents
      (fun a b => by
        simp only [sampleLocaleCompare_le_iff]
        exact le_total a b)
      (fun a b c => by
        simp only [sampleLocaleCompare_le_iff]
        exact le_trans)
      (fun a b => by
        simp only [sampleLocaleCompare_le_iff]
        exact le_antisymm)).2 (by decide)
  exact ⟨groups, displayed, h1, h2, h3, h4⟩

end LawyerManagement
